import Mathlib

/-!
ThinkPad X1 Tablet Gen3 keyboard quirk driver (`hid-x1tab3.c`).

A shallow embedding of `drivers/hid/hid-x1tab3.c` and the properties of its
usage mapping, event translation, LED control, probe and removal paths.

The driver mutates three kinds of state: the process-wide LED registry
`hid_lenovo_led_table`, the per-device data hanging off each `hid_device`,
and the host subsystems it calls into (LED class, input core, HID transport).
All of it is gathered in one `World` value that every driver function takes
and returns.  Host calls that the driver only issues are kept as traces.
-/

namespace X1Tab3

/-! ## Host constants (`linux/hid.h`, `linux/leds.h`, `errno.h`) -/

/-- Mask selecting the usage page of a 32-bit HID usage. -/
def HID_USAGE_PAGE : Nat := 0xffff0000
/-- Mask selecting the usage code of a 32-bit HID usage. -/
def HID_USAGE : Nat := 0x0000ffff
/-- The Consumer usage page. -/
def HID_UP_CONSUMER : Nat := 0x000c0000

/-- Brightness value `LED_OFF` of `enum led_brightness`. -/
def LED_OFF : Nat := 0
/-- Brightness value `LED_FULL` of `enum led_brightness`. -/
def LED_FULL : Nat := 255

def ENOENT : Int := 2
def ENOMEM : Int := 12
def ENODEV : Int := 19
def EINVAL : Int := 22

/-- The key codes of `linux/input-event-codes.h` that the driver names. -/
inductive Key where
  | KEY_UNKNOWN
  | KEY_FN
  | KEY_MICMUTE
  | KEY_CONFIG
  | KEY_SEARCH
  | KEY_SETUP
  | KEY_SWITCHVIDEOMODE
  | KEY_RFKILL
  | KEY_BRIGHTNESSUP
  | KEY_BRIGHTNESSDOWN
  | KEY_STOPCD
  | KEY_PLAYPAUSE
  | KEY_MUTE
  | KEY_VOLUMEUP
  | KEY_VOLUMEDOWN
  deriving DecidableEq, Repr

open Key

/-- The two members of `struct hid_usage` the driver reads: the 32-bit usage
(`page << 16 | code`) and the position of the usage inside its field. -/
structure hid_usage where
  hid : Nat
  usage_index : Nat
  deriving DecidableEq, Repr

/-! ## Input mapping -/

/-- What `lenovo_input_mapping_tpx1cover` does to the input device while
mapping one usage: `map_key_clear c` binds the usage to key `c`
(`hid_map_usage_clear`), `input_set_capability c` declares that the input
device can emit key `c`. -/
inductive MapEffect where
  | map_key_clear (c : Key)
  | input_set_capability (c : Key)
  deriving DecidableEq, Repr

open MapEffect

/-- The `switch (usage->usage_index)` under the vendor usage `0x0001`,
entered after `map_key_clear(KEY_UNKNOWN)` has run. -/
def vendor_usage_index_mapping (usage_index : Nat) : Int × List MapEffect :=
  if usage_index = 0x8 then (1, [map_key_clear KEY_UNKNOWN, input_set_capability KEY_FN])
  else if usage_index = 0x9 then (1, [map_key_clear KEY_UNKNOWN, input_set_capability KEY_MICMUTE])
  else if usage_index = 0xa then (1, [map_key_clear KEY_UNKNOWN, input_set_capability KEY_CONFIG])
  else if usage_index = 0xb then (1, [map_key_clear KEY_UNKNOWN, input_set_capability KEY_SEARCH])
  else if usage_index = 0xc then (1, [map_key_clear KEY_UNKNOWN, input_set_capability KEY_SETUP])
  else if usage_index = 0xd then
    (1, [map_key_clear KEY_UNKNOWN, input_set_capability KEY_SWITCHVIDEOMODE])
  else if usage_index = 0xe then (1, [map_key_clear KEY_UNKNOWN, input_set_capability KEY_RFKILL])
  else (-1, [map_key_clear KEY_UNKNOWN])

/-- The `input_mapping` callback: the return value and the effects on the
input device, in program order. -/
def lenovo_input_mapping_tpx1cover (usage : hid_usage) : Int × List MapEffect :=
  if usage.hid &&& HID_USAGE_PAGE = HID_UP_CONSUMER then
    if usage.hid &&& HID_USAGE = 0x0001 then vendor_usage_index_mapping usage.usage_index
    else if usage.hid &&& HID_USAGE = 0x006f then (1, [map_key_clear KEY_BRIGHTNESSUP])
    else if usage.hid &&& HID_USAGE = 0x0070 then (1, [map_key_clear KEY_BRIGHTNESSDOWN])
    else if usage.hid &&& HID_USAGE = 0x00b7 then (1, [map_key_clear KEY_STOPCD])
    else if usage.hid &&& HID_USAGE = 0x00cd then (1, [map_key_clear KEY_PLAYPAUSE])
    else if usage.hid &&& HID_USAGE = 0x00e0 then (0, [])
    else if usage.hid &&& HID_USAGE = 0x00e2 then (1, [map_key_clear KEY_MUTE])
    else if usage.hid &&& HID_USAGE = 0x00e9 then (1, [map_key_clear KEY_VOLUMEUP])
    else if usage.hid &&& HID_USAGE = 0x00ea then (1, [map_key_clear KEY_VOLUMEDOWN])
    else (0, [])
  else (0, [])

/-! ## Device and registry state -/

/-- Index of an entry of `hid_lenovo_led_table`; `HID_LENOVO_LED_MAX` is 3. -/
abbrev LedNum := Fin 3

def HID_LENOVO_LED_MUTE : LedNum := 0
def HID_LENOVO_LED_MICMUTE : LedNum := 1
def HID_LENOVO_LED_FNLOCK : LedNum := 2
abbrev HID_LENOVO_LED_MAX : Int := 3

/-- The three `struct led_classdev` members of `lenovo_drvdata_tpx1cover`. -/
inductive LedField where
  | led_mute
  | led_micmute
  | led_fnlock
  deriving DecidableEq, Repr

open LedField

/-- A `struct led_classdev *`: the address of member `fld` of the driver-data
object allocated at address `obj` for HID device `hdev`. Two pointers are
equal exactly when they name the same member of the same allocation. -/
structure LedPtr where
  hdev : Nat
  obj : Nat
  fld : LedField
  deriving DecidableEq, Repr

/-- The members of `struct led_classdev` the driver writes. A function
pointer is `true` when it holds the driver callback and `false` when null. -/
structure led_classdev where
  name : Option String
  brightness_get : Bool
  brightness_set : Bool
  dev : Option Nat
  deriving DecidableEq, Repr

/-- A zero-filled `led_classdev`, as `devm_kzalloc` leaves it. -/
def led_classdev.zero : led_classdev :=
  { name := none, brightness_get := false, brightness_set := false, dev := none }

/-- The per-device data, with the address `addr` it was allocated at. -/
structure lenovo_drvdata_tpx1cover where
  addr : Nat
  led_state : Nat
  fnlock_state : Nat
  led_present : Nat
  led_mute : led_classdev
  led_micmute : led_classdev
  led_fnlock : led_classdev
  deriving DecidableEq, Repr

/-- Result of `devm_kzalloc(sizeof(struct lenovo_drvdata_tpx1cover))` at `addr`. -/
def lenovo_drvdata_tpx1cover.zero (addr : Nat) : lenovo_drvdata_tpx1cover :=
  { addr := addr, led_state := 0, fnlock_state := 0, led_present := 0,
    led_mute := led_classdev.zero, led_micmute := led_classdev.zero,
    led_fnlock := led_classdev.zero }

/-- Member access `drv_data-><fld>`. -/
def lenovo_drvdata_tpx1cover.led (d : lenovo_drvdata_tpx1cover) : LedField → led_classdev
  | .led_mute => d.led_mute
  | .led_micmute => d.led_micmute
  | .led_fnlock => d.led_fnlock

inductive hid_report_type where
  | HID_INPUT_REPORT
  | HID_OUTPUT_REPORT
  | HID_FEATURE_REPORT
  deriving DecidableEq, Repr

open hid_report_type

/-- A parsed report: its id and the `report_count` of each of its fields. -/
structure hid_report where
  id : Nat
  field : List Nat
  deriving DecidableEq, Repr

/-- Key or sync event delivered to the input core. -/
inductive input_event where
  | key (code : Key) (value : Int)
  | sync
  deriving DecidableEq, Repr

/-- The part of `struct hid_device` the driver touches: the bus name, the
parsed reports of each type, the driver data (`hid_get_drvdata`), and the
events it has sent to the input device of this HID device. -/
structure hid_device where
  dev_name : String
  report_enum : hid_report_type → List hid_report
  drvdata : Option lenovo_drvdata_tpx1cover
  input_events : List input_event

/-- One entry of `hid_lenovo_led_table`. -/
structure led_table_entry where
  dev : Option LedPtr
  state : Nat
  deriving DecidableEq, Repr

/-- A `hid_hw_request(hdev, report, HID_REQ_SET_REPORT)` with the two values
stored in `report->field[0]->value[0..1]` just before the call. -/
structure hw_request where
  hdev : Nat
  report_id : Nat
  value0 : Nat
  value1 : Nat
  deriving DecidableEq, Repr

/-- Calls into the LED class. -/
inductive led_class_call where
  | register (led : LedPtr)
  | unregister (led : LedPtr)
  deriving DecidableEq, Repr

/-- Everything the driver reads or writes.  `alloc_ok k` tells whether the
`k`-th `devm_kzalloc` call succeeds; the call number doubles as the fresh
address of the allocation. -/
structure World where
  hid_lenovo_led_table : LedNum → led_table_entry
  devs : Nat → hid_device
  alloc_ok : Nat → Bool
  alloc_calls : Nat
  led_class_calls : List led_class_call
  hw_requests : List hw_request

/-- Replace device `hdev`. -/
def World.set_dev (w : World) (hdev : Nat) (d : hid_device) : World :=
  { w with devs := fun i => if i = hdev then d else w.devs i }

/-- The call `hid_set_drvdata(hdev, p)`. -/
def hid_set_drvdata (w : World) (hdev : Nat) (p : Option lenovo_drvdata_tpx1cover) : World :=
  w.set_dev hdev { w.devs hdev with drvdata := p }

/-- Assignment `hid_lenovo_led_table[i].dev = p`. -/
def World.set_table_dev (w : World) (i : LedNum) (p : Option LedPtr) : World :=
  { w with hid_lenovo_led_table := fun j =>
      if j = i then { w.hid_lenovo_led_table i with dev := p } else w.hid_lenovo_led_table j }

/-- Assignment `hid_lenovo_led_table[i].state = s`. -/
def World.set_table_state (w : World) (i : LedNum) (s : Nat) : World :=
  { w with hid_lenovo_led_table := fun j =>
      if j = i then { w.hid_lenovo_led_table i with state := s } else w.hid_lenovo_led_table j }

/-- The address `&drv_data-><fld>` for the driver data of device `hdev`. -/
def led_ptr (hdev : Nat) (drv_data : lenovo_drvdata_tpx1cover) (fld : LedField) : LedPtr :=
  { hdev := hdev, obj := drv_data.addr, fld := fld }

/-- Lookup `hdev->report_enum[type].report_id_hash[id]`. -/
def report_id_hash (hdev : hid_device) (type : hid_report_type) (id : Nat) : Option hid_report :=
  (hdev.report_enum type).find? (fun r => r.id == id)

/-- Host function `hid_validate_values` for a non-zero report id: the report
must exist, have field `field_index`, and that field must hold at least
`report_counts` values. -/
def hid_validate_values (hdev : hid_device) (type : hid_report_type)
    (id field_index report_counts : Nat) : Option hid_report :=
  match report_id_hash hdev type id with
  | none => none
  | some report =>
    match report.field[field_index]? with
    | none => none
    | some report_count => if report_count < report_counts then none else some report

/-- Host function `devm_kzalloc`: null, or the address of a fresh zeroed block. -/
def devm_kzalloc (w : World) : Option Nat × World :=
  (if w.alloc_ok w.alloc_calls then some w.alloc_calls else none,
   { w with alloc_calls := w.alloc_calls + 1 })

/-- Host function `hid_hw_request` with `HID_REQ_SET_REPORT`, recorded. -/
def hid_hw_request (w : World) (hdev report_id value0 value1 : Nat) : World :=
  { w with hw_requests := w.hw_requests ++
      [{ hdev := hdev, report_id := report_id, value0 := value0, value1 := value1 }] }

/-- Host function `hid_hw_wait`: blocks until the transfer is done; no state. -/
def hid_hw_wait (w : World) (_hdev : Nat) : World := w

def led_classdev_register (w : World) (led : LedPtr) : World :=
  { w with led_class_calls := w.led_class_calls ++ [led_class_call.register led] }

def led_classdev_unregister (w : World) (led : LedPtr) : World :=
  { w with led_class_calls := w.led_class_calls ++ [led_class_call.unregister led] }

/-- Host functions `input_event(input, EV_KEY, code, value)` then
`input_sync(input)` on the input device of `hdev`. -/
def input_key_sync (w : World) (hdev : Nat) (code : Key) (value : Int) : World :=
  w.set_dev hdev { w.devs hdev with
    input_events := (w.devs hdev).input_events ++ [input_event.key code value, input_event.sync] }

/-! ## Event translator -/

/-- The `event` callback for an event on `usage` with `value`, whose field
belongs to the input device of `hdev`: the return value and the new world. -/
def lenovo_event_tpx1cover (w : World) (hdev : Nat) (usage : hid_usage) (value : Int) :
    Int × World :=
  let s0 : Int × World := (0, w)
  if usage.hid &&& HID_USAGE_PAGE = HID_UP_CONSUMER ∧ usage.hid &&& HID_USAGE = 0x0001 then
    -- the body of the `usage_index == 0x8` branch is commented out in the source
    let s1 := if usage.usage_index = 0x8 ∧ value = 1 then s0 else s0
    let s2 := if usage.usage_index = 0x9 ∧ value = 1 then
        (1, input_key_sync (input_key_sync s1.2 hdev KEY_MICMUTE 1) hdev KEY_MICMUTE 0)
      else s1
    let s3 := if usage.usage_index = 0xa ∧ value = 1 then
        (1, input_key_sync (input_key_sync s2.2 hdev KEY_CONFIG 1) hdev KEY_CONFIG 0)
      else s2
    let s4 := if usage.usage_index = 0xb ∧ value = 1 then
        (1, input_key_sync (input_key_sync s3.2 hdev KEY_SEARCH 1) hdev KEY_SEARCH 0)
      else s3
    let s5 := if usage.usage_index = 0xc ∧ value = 1 then
        (1, input_key_sync (input_key_sync s4.2 hdev KEY_SETUP 1) hdev KEY_SETUP 0)
      else s4
    let s6 := if usage.usage_index = 0xd ∧ value = 1 then
        (1, input_key_sync (input_key_sync s5.2 hdev KEY_SWITCHVIDEOMODE 1) hdev
          KEY_SWITCHVIDEOMODE 0)
      else s5
    let s7 := if usage.usage_index = 0xe ∧ value = 1 then
        (1, input_key_sync (input_key_sync s6.2 hdev KEY_RFKILL 1) hdev KEY_RFKILL 0)
      else s6
    s7
  else s0

/-! ## LED controller -/

/-- The `brightness_get` callback. With no driver data on the parent device
no member address equals `led_cdev`, so the chain ends in `LED_OFF`. -/
def lenovo_led_brightness_get_tpx1cover (w : World) (led_cdev : LedPtr) : Nat :=
  let hdev := led_cdev.hdev
  match (w.devs hdev).drvdata with
  | none => LED_OFF
  | some drv_data =>
    let led_nr : Option Nat :=
      if led_cdev = led_ptr hdev drv_data .led_mute then some 0
      else if led_cdev = led_ptr hdev drv_data .led_micmute then some 1
      else if led_cdev = led_ptr hdev drv_data .led_fnlock then some 2
      else none
    match led_nr with
    | none => LED_OFF
    | some led_nr => if drv_data.led_state &&& (1 <<< led_nr) ≠ 0 then LED_FULL else LED_OFF

/-- The two assignments to `drv_data->led_state` in the `brightness_set`
callback. `led_state` is a `uint16_t`: the complement is taken on the promoted
32-bit `int` and the result is truncated to 16 bits when stored. -/
def led_state_store (led_state led_nr value : Nat) : Nat :=
  if value = LED_OFF then (led_state &&& (0xffffffff ^^^ (1 <<< led_nr))) % 2 ^ 16
  else (led_state ||| (1 <<< led_nr)) % 2 ^ 16

/-- The `brightness_set` callback. An unrecognised `led_cdev` (also: no
driver data on the parent device) only logs a warning. -/
def lenovo_led_brightness_set_tpx1cover (w : World) (led_cdev : LedPtr) (value : Nat) : World :=
  let hdev := led_cdev.hdev
  match (w.devs hdev).drvdata with
  | none => w
  | some drv_data =>
    let sel : Option (Nat × Nat) :=
      if led_cdev = led_ptr hdev drv_data .led_mute then some (0, 0x64)
      else if led_cdev = led_ptr hdev drv_data .led_micmute then some (1, 0x74)
      else if led_cdev = led_ptr hdev drv_data .led_fnlock then some (2, 0x54)
      else none
    match sel with
    | none => w
    | some (led_nr, led_nr_hw) =>
      let led_state := led_state_store drv_data.led_state led_nr value
      let w1 := hid_set_drvdata w hdev (some { drv_data with led_state := led_state })
      match report_id_hash (w1.devs hdev) HID_OUTPUT_REPORT 9 with
      | none => w1
      | some _ =>
        hid_hw_request w1 hdev 9 led_nr_hw (if led_state &&& (1 <<< led_nr) ≠ 0 then 0x02 else 0x01)

/-- The `led_classdev` a registry handle points at, when the driver data it
lives in is still the live driver data of its device; `none` when the
object has been freed. -/
def World.led_at (w : World) (p : LedPtr) : Option led_classdev :=
  match (w.devs p.hdev).drvdata with
  | none => none
  | some d => if d.addr = p.obj then some (d.led p.fld) else none

/-- The exported `hid_lenovo_led_set`. `none` stands for undefined behaviour:
an access outside `hid_lenovo_led_table`, or a read through a handle whose
object has been freed. -/
def hid_lenovo_led_set (w : World) (led_num : Int) (state_on : Bool) : Option (Int × World) :=
  if led_num ≥ HID_LENOVO_LED_MAX then some (-EINVAL, w)
  else if h : 0 ≤ led_num ∧ led_num < 3 then
    let i : LedNum := ⟨led_num.toNat, by omega⟩
    let dev := (w.hid_lenovo_led_table i).dev
    let w1 := w.set_table_state i (if state_on then 1 else 0)
    match dev with
    | none => some (-ENODEV, w1)
    | some p =>
      match w1.led_at p with
      | none => none
      | some cdev =>
        if cdev.brightness_set = false then some (-ENODEV, w1)
        else some (0, lenovo_led_brightness_set_tpx1cover w1 p (if state_on then LED_FULL else LED_OFF))
  else none

/-! ## Probe and removal -/

/-- The init handshake and LED restore. -/
def lenovo_probe_tpx1cover_configure (w : World) (hdev : Nat) : Int × World :=
  let report := report_id_hash (w.devs hdev) HID_OUTPUT_REPORT 9
  match (w.devs hdev).drvdata with
  | none => (-ENODEV, w)
  | some drv_data =>
    match report with
    | none => (-ENOENT, w)
    | some _ =>
      let w := hid_hw_wait (hid_hw_request w hdev 9 0x54 0x20) hdev
      let w := hid_hw_wait (hid_hw_request w hdev 9 0x54 0x08) hdev
      let w := hid_hw_wait (hid_hw_request w hdev 9 0xA0 0x02) hdev
      let w := hid_hw_wait (lenovo_led_brightness_set_tpx1cover w (led_ptr hdev drv_data .led_mute)
        (if (w.hid_lenovo_led_table HID_LENOVO_LED_MUTE).state ≠ 0 then LED_FULL else LED_OFF)) hdev
      let w := hid_hw_wait (lenovo_led_brightness_set_tpx1cover w
        (led_ptr hdev drv_data .led_micmute)
        (if (w.hid_lenovo_led_table HID_LENOVO_LED_MICMUTE).state ≠ 0 then LED_FULL else LED_OFF))
        hdev
      let w := lenovo_led_brightness_set_tpx1cover w (led_ptr hdev drv_data .led_fnlock) LED_FULL
      (0, w)

/-- The value of `report_match` in `lenovo_probe_tpx1cover_special_functions`. -/
def special_functions_report_match (hdev : hid_device) : Bool :=
  (hid_validate_values hdev HID_INPUT_REPORT 2 0 1).isSome
  && (hid_validate_values hdev HID_INPUT_REPORT 3 0 16).isSome
  && (hid_validate_values hdev HID_OUTPUT_REPORT 9 0 2).isSome
  && (hid_validate_values hdev HID_FEATURE_REPORT 84 0 1).isSome
  && (hid_validate_values hdev HID_FEATURE_REPORT 100 0 1).isSome
  && (hid_validate_values hdev HID_FEATURE_REPORT 116 0 1).isSome
  && (hid_validate_values hdev HID_FEATURE_REPORT 144 0 1).isSome

/-- The `err_cleanup:` label: unregister the LEDs whose name is set, last
first, release the driver data, and return `ret`. -/
def special_functions_err_cleanup (w : World) (hdev : Nat) (drv_data : lenovo_drvdata_tpx1cover)
    (ret : Int) : Int × World :=
  let w := if drv_data.led_fnlock.name.isSome then
      led_classdev_unregister w (led_ptr hdev drv_data .led_fnlock) else w
  let w := if drv_data.led_micmute.name.isSome then
      led_classdev_unregister w (led_ptr hdev drv_data .led_micmute) else w
  let w := if drv_data.led_mute.name.isSome then
      led_classdev_unregister w (led_ptr hdev drv_data .led_mute) else w
  (ret, w)

/-- The initialised `led_classdev` of one LED. -/
def led_classdev.init (name : String) (hdev : Nat) : led_classdev :=
  { name := some name, brightness_get := true, brightness_set := true, dev := some hdev }

def lenovo_probe_tpx1cover_special_functions (w : World) (hdev : Nat) : Int × World :=
  let name := (w.devs hdev).dev_name
  if special_functions_report_match (w.devs hdev) = false then (-ENODEV, w)
  else
    match devm_kzalloc w with
    | (none, w) => (-ENOMEM, w)
    | (some addr, w) =>
      let drv_data := lenovo_drvdata_tpx1cover.zero addr
      match devm_kzalloc w with
      | (none, w) => special_functions_err_cleanup w hdev drv_data (-ENOMEM)
      | (some _, w) =>
        let drv_data :=
          { drv_data with led_mute := led_classdev.init (name ++ ":amber:mute") hdev }
        let w := w.set_table_dev HID_LENOVO_LED_MUTE (some (led_ptr hdev drv_data .led_mute))
        let w := led_classdev_register w (led_ptr hdev drv_data .led_mute)
        match devm_kzalloc w with
        | (none, w) => special_functions_err_cleanup w hdev drv_data (-ENOMEM)
        | (some _, w) =>
          let drv_data :=
            { drv_data with led_micmute := led_classdev.init (name ++ ":amber:micmute") hdev }
          let w := w.set_table_dev HID_LENOVO_LED_MICMUTE
            (some (led_ptr hdev drv_data .led_micmute))
          let w := led_classdev_register w (led_ptr hdev drv_data .led_micmute)
          match devm_kzalloc w with
          | (none, w) => special_functions_err_cleanup w hdev drv_data (-ENOMEM)
          | (some _, w) =>
            let drv_data :=
              { drv_data with led_fnlock := led_classdev.init (name ++ ":amber:fnlock") hdev }
            let w := w.set_table_dev HID_LENOVO_LED_FNLOCK
              (some (led_ptr hdev drv_data .led_fnlock))
            let w := led_classdev_register w (led_ptr hdev drv_data .led_fnlock)
            let drv_data :=
              { drv_data with led_state := 0, fnlock_state := 1, led_present := 1 }
            let w := hid_set_drvdata w hdev (some drv_data)
            lenovo_probe_tpx1cover_configure w hdev

/-- The value of `report_match` in `lenovo_probe_tpx1cover_touch`. -/
def touch_report_match (hdev : hid_device) : Bool :=
  (hid_validate_values hdev HID_INPUT_REPORT 2 0 2).isSome
  && (hid_validate_values hdev HID_INPUT_REPORT 2 1 2).isSome
  && (hid_validate_values hdev HID_INPUT_REPORT 11 0 61).isSome
  && (hid_validate_values hdev HID_INPUT_REPORT 12 0 61).isSome
  && (hid_validate_values hdev HID_INPUT_REPORT 16 0 3).isSome
  && (hid_validate_values hdev HID_INPUT_REPORT 16 1 2).isSome
  && (hid_validate_values hdev HID_OUTPUT_REPORT 9 0 20).isSome
  && (hid_validate_values hdev HID_OUTPUT_REPORT 10 0 20).isSome
  && (hid_validate_values hdev HID_FEATURE_REPORT 14 0 1).isSome
  && (hid_validate_values hdev HID_FEATURE_REPORT 15 0 3).isSome

def lenovo_probe_tpx1cover_touch (w : World) (hdev : Nat) : Int :=
  if touch_report_match (w.devs hdev) = false then -ENODEV else 0

def lenovo_probe_tpx1cover (w : World) (hdev : Nat) : Int × World :=
  match lenovo_probe_tpx1cover_special_functions w hdev with
  | (ret_sf, w) =>
    if ret_sf = 0 then (0, w)
    else if lenovo_probe_tpx1cover_touch w hdev = 0 then (-ENODEV, w)
    else
      match devm_kzalloc w with
      | (none, w) => (-ENOMEM, w)
      | (some addr, w) =>
        let drv_data :=
          { lenovo_drvdata_tpx1cover.zero addr with
            led_state := 0, led_present := 0, fnlock_state := 1 }
        (0, hid_set_drvdata w hdev (some drv_data))

def lenovo_remove_tpx1cover (w : World) (hdev : Nat) : World :=
  match (w.devs hdev).drvdata with
  | none => w
  | some drv_data =>
    let w :=
      if drv_data.led_present ≠ 0 then
        let w := if drv_data.led_fnlock.name.isSome then
            led_classdev_unregister (w.set_table_dev HID_LENOVO_LED_FNLOCK none)
              (led_ptr hdev drv_data .led_fnlock)
          else w
        let w := if drv_data.led_micmute.name.isSome then
            led_classdev_unregister (w.set_table_dev HID_LENOVO_LED_MICMUTE none)
              (led_ptr hdev drv_data .led_micmute)
          else w
        let w := if drv_data.led_mute.name.isSome then
            led_classdev_unregister (w.set_table_dev HID_LENOVO_LED_MUTE none)
              (led_ptr hdev drv_data .led_mute)
          else w
        w
      else w
    hid_set_drvdata w hdev none

/-! ## Concrete devices -/

/-- Reports of the special-function interface (usb interface 1). -/
def special_function_reports : hid_report_type → List hid_report
  | .HID_INPUT_REPORT => [⟨2, [1]⟩, ⟨3, [16]⟩]
  | .HID_OUTPUT_REPORT => [⟨9, [2]⟩]
  | .HID_FEATURE_REPORT => [⟨84, [1]⟩, ⟨100, [1]⟩, ⟨116, [1]⟩, ⟨144, [1]⟩]

/-- Reports of the touch interface (usb interface 2). -/
def touch_reports : hid_report_type → List hid_report
  | .HID_INPUT_REPORT => [⟨2, [2, 2]⟩, ⟨11, [61]⟩, ⟨12, [61]⟩, ⟨16, [3, 2]⟩]
  | .HID_OUTPUT_REPORT => [⟨9, [20]⟩, ⟨10, [20]⟩]
  | .HID_FEATURE_REPORT => [⟨14, [1]⟩, ⟨15, [3]⟩]

/-- Reports of the plain keyboard interface (usb interface 0). -/
def keyboard_reports : hid_report_type → List hid_report
  | .HID_INPUT_REPORT => [⟨1, [8, 6]⟩]
  | .HID_OUTPUT_REPORT => [⟨1, [5]⟩]
  | .HID_FEATURE_REPORT => []

/-- An unprobed device with the given reports. -/
def fresh_device (reports : hid_report_type → List hid_report) : hid_device :=
  { dev_name := "0003:17EF:60B5.0001", report_enum := reports, drvdata := none,
    input_events := [] }

/-- The state at module load: an all-zero LED registry; device 0 is the
keyboard interface, 1 the special-function interface, 2 the touch interface. -/
def boot_world (alloc_ok : Nat → Bool) : World :=
  { hid_lenovo_led_table := fun _ => { dev := none, state := 0 },
    devs := fun i =>
      if i = 1 then fresh_device special_function_reports
      else if i = 2 then fresh_device touch_reports
      else fresh_device keyboard_reports,
    alloc_ok := alloc_ok,
    alloc_calls := 0,
    led_class_calls := [],
    hw_requests := [] }

/-- Driver data as the special-function probe initialises it for device
`hdev` with bus name `name`, allocated at `addr`, with LED mask `mask`. -/
def owning_drvdata (name : String) (hdev addr mask : Nat) : lenovo_drvdata_tpx1cover :=
  { addr := addr, led_state := mask, fnlock_state := 1, led_present := 1,
    led_mute := led_classdev.init (name ++ ":amber:mute") hdev,
    led_micmute := led_classdev.init (name ++ ":amber:micmute") hdev,
    led_fnlock := led_classdev.init (name ++ ":amber:fnlock") hdev }

/-- Driver data as the keyboard fallback of the probe initialises it. -/
def keyboard_drvdata (addr : Nat) : lenovo_drvdata_tpx1cover :=
  { addr := addr, led_state := 0, fnlock_state := 1, led_present := 0,
    led_mute := led_classdev.zero, led_micmute := led_classdev.zero,
    led_fnlock := led_classdev.zero }

/-- The boot world with device 1 bound and owning the LEDs, LED mask `mask`. -/
def led_world (mask : Nat) : World :=
  hid_set_drvdata (boot_world fun _ => true) 1
    (some (owning_drvdata "0003:17EF:60B5.0001" 1 0 mask))

/-! ## Statement vocabulary -/

/-- The world after the input device of `hdev` received press, sync, release,
sync of key `k`, and nothing else changed. -/
def World.with_press_release (w : World) (hdev : Nat) (k : Key) : World :=
  w.set_dev hdev { w.devs hdev with
    input_events := (w.devs hdev).input_events ++
      [input_event.key k 1, input_event.sync, input_event.key k 0, input_event.sync] }

/-- Bit number of each LED in `led_state`. -/
def LedField.nr : LedField → Nat
  | .led_mute => 0
  | .led_micmute => 1
  | .led_fnlock => 2

/-- Selector byte of each LED in the report-9 payload. -/
def LedField.selector : LedField → Nat
  | .led_mute => 0x64
  | .led_micmute => 0x74
  | .led_fnlock => 0x54

/-- A sequence of `brightness_set` calls on LEDs of the driver data at `obj`
of device `hdev`, first call first. -/
def run_sets (w : World) (hdev obj : Nat) : List (LedField × Nat) → World
  | [] => w
  | (fld, value) :: rest =>
    run_sets (lenovo_led_brightness_set_tpx1cover w ⟨hdev, obj, fld⟩ value) hdev obj rest

/-- The value of the most recent call on LED `n` in a sequence of calls. -/
def last_request (n : LedField) : List (LedField × Nat) → Option Nat
  | [] => none
  | (fld, value) :: rest =>
    match last_request n rest with
    | some v => some v
    | none => if fld = n then some value else none

/-- The world with the parsed reports of device `hdev` replaced. -/
def World.with_reports (w : World) (hdev : Nat) (reports : hid_report_type → List hid_report) :
    World :=
  w.set_dev hdev { w.devs hdev with report_enum := reports }

/-! ## Host call sequences -/

/-- One call of the host into the driver for the device instance `hdev`. -/
inductive HostCall where
  | probe (hdev : Nat)
  | remove (hdev : Nat)
  deriving DecidableEq, Repr

/-- The world together with the device instances that are attached: those
whose last `lenovo_probe_tpx1cover` returned 0 and which were not removed
since. -/
structure HostState where
  world : World
  attached : List Nat

/-- The host performs one call. -/
def host_step (s : HostState) : HostCall → HostState
  | .probe hdev =>
    { world := (lenovo_probe_tpx1cover s.world hdev).2,
      attached :=
        if (lenovo_probe_tpx1cover s.world hdev).1 = 0 then hdev :: s.attached else s.attached }
  | .remove hdev =>
    { world := lenovo_remove_tpx1cover s.world hdev,
      attached := s.attached.filter fun i => i != hdev }

/-- The host performs a sequence of calls, first call first. -/
def host_run (s : HostState) : List HostCall → HostState
  | [] => s
  | c :: rest => host_run (host_step s c) rest

/-- Every bound handle of the LED registry points at an LED of one and the
same driver-data object of one device instance, that instance is attached,
and the object is its live driver data. -/
def registry_single_attached (s : HostState) : Prop :=
  ∀ i p, (s.world.hid_lenovo_led_table i).dev = some p →
    p.hdev ∈ s.attached ∧ (s.world.led_at p).isSome = true ∧
    ∀ j q, (s.world.hid_lenovo_led_table j).dev = some q → q.hdev = p.hdev ∧ q.obj = p.obj

/-- What no driver call on device `hdev` changes: the allocation outcomes,
the parsed reports of every device, and the driver data of the other devices. -/
def World.frame (hdev : Nat) (w w2 : World) : Prop :=
  w2.alloc_ok = w.alloc_ok ∧
  (∀ i, (w2.devs i).report_enum = (w.devs i).report_enum) ∧
  (∀ i, i ≠ hdev → (w2.devs i).drvdata = (w.devs i).drvdata)

/-- The invariant that host call sequences maintain while every allocation
succeeds: driver data with the ownership flag belongs to a special-function
device and has its three LED names set, and every bound registry handle points
into the live, owning driver data of one attached device instance. -/
def host_invariant (s : HostState) : Prop :=
  (∀ k, s.world.alloc_ok k = true) ∧
  (∀ h d, (s.world.devs h).drvdata = some d → d.led_present ≠ 0 →
    special_functions_report_match (s.world.devs h) = true ∧
    d.led_mute.name.isSome = true ∧ d.led_micmute.name.isSome = true ∧
    d.led_fnlock.name.isSome = true) ∧
  (∀ i p, (s.world.hid_lenovo_led_table i).dev = some p →
    p.hdev ∈ s.attached ∧
    (∃ d, (s.world.devs p.hdev).drvdata = some d ∧ d.addr = p.obj ∧ d.led_present ≠ 0) ∧
    ∀ j q, (s.world.hid_lenovo_led_table j).dev = some q → q.hdev = p.hdev ∧ q.obj = p.obj)

/-! ## Input mapping: theorems -/

/-- C1: a Consumer-page usage whose code is not the vendor code 0x0001 is
mapped by the fixed table (brightness up/down, stop, play/pause, mute, volume
up/down) and consumed with return value 1; code 0x00e0, every other Consumer
code and every usage of another page get no mapping and return value 0. -/
theorem input_mapping_consumer_table (usage : hid_usage) :
    (usage.hid &&& HID_USAGE_PAGE = HID_UP_CONSUMER →
      (usage.hid &&& HID_USAGE = 0x006f →
        lenovo_input_mapping_tpx1cover usage = (1, [map_key_clear KEY_BRIGHTNESSUP])) ∧
      (usage.hid &&& HID_USAGE = 0x0070 →
        lenovo_input_mapping_tpx1cover usage = (1, [map_key_clear KEY_BRIGHTNESSDOWN])) ∧
      (usage.hid &&& HID_USAGE = 0x00b7 →
        lenovo_input_mapping_tpx1cover usage = (1, [map_key_clear KEY_STOPCD])) ∧
      (usage.hid &&& HID_USAGE = 0x00cd →
        lenovo_input_mapping_tpx1cover usage = (1, [map_key_clear KEY_PLAYPAUSE])) ∧
      (usage.hid &&& HID_USAGE = 0x00e2 →
        lenovo_input_mapping_tpx1cover usage = (1, [map_key_clear KEY_MUTE])) ∧
      (usage.hid &&& HID_USAGE = 0x00e9 →
        lenovo_input_mapping_tpx1cover usage = (1, [map_key_clear KEY_VOLUMEUP])) ∧
      (usage.hid &&& HID_USAGE = 0x00ea →
        lenovo_input_mapping_tpx1cover usage = (1, [map_key_clear KEY_VOLUMEDOWN])) ∧
      (usage.hid &&& HID_USAGE = 0x00e0 → lenovo_input_mapping_tpx1cover usage = (0, [])) ∧
      (usage.hid &&& HID_USAGE ∉ [0x0001, 0x006f, 0x0070, 0x00b7, 0x00cd, 0x00e2, 0x00e9, 0x00ea] →
        lenovo_input_mapping_tpx1cover usage = (0, []))) ∧
    (usage.hid &&& HID_USAGE_PAGE ≠ HID_UP_CONSUMER →
      lenovo_input_mapping_tpx1cover usage = (0, [])) := by
  refine ⟨fun hp => ⟨?_, ?_, ?_, ?_, ?_, ?_, ?_, ?_, ?_⟩, fun hp => ?_⟩
  all_goals try intro hc
  all_goals simp_all [lenovo_input_mapping_tpx1cover]

/-- Witness for C1 at the brightness-up, absolute-volume, an unlisted Consumer
usage and a keyboard-page usage. -/
theorem input_mapping_consumer_table_witness :
    lenovo_input_mapping_tpx1cover ⟨0x000c006f, 0⟩ = (1, [map_key_clear KEY_BRIGHTNESSUP]) ∧
    lenovo_input_mapping_tpx1cover ⟨0x000c00e0, 0⟩ = (0, []) ∧
    lenovo_input_mapping_tpx1cover ⟨0x000c0223, 0⟩ = (0, []) ∧
    lenovo_input_mapping_tpx1cover ⟨0x00070004, 0⟩ = (0, []) :=
  ⟨((input_mapping_consumer_table ⟨0x000c006f, 0⟩).1 (by decide)).1 (by decide),
   ((input_mapping_consumer_table ⟨0x000c00e0, 0⟩).1 (by decide)).2.2.2.2.2.2.2.1 (by decide),
   ((input_mapping_consumer_table ⟨0x000c0223, 0⟩).1 (by decide)).2.2.2.2.2.2.2.2 (by decide),
   (input_mapping_consumer_table ⟨0x00070004, 0⟩).2 (by decide)⟩

/-- C2: under the vendor code 0x0001 of the Consumer page the usage is bound
to `KEY_UNKNOWN`, and usage index 0x8 .. 0xe declares the key Fn, mic-mute,
config, search, setup, video-mode switch, radio-kill and returns 1; every
other usage index returns -1. -/
theorem input_mapping_vendor_usage_index (usage : hid_usage)
    (hpage : usage.hid &&& HID_USAGE_PAGE = HID_UP_CONSUMER)
    (hcode : usage.hid &&& HID_USAGE = 0x0001) :
    (usage.usage_index = 0x8 → lenovo_input_mapping_tpx1cover usage =
      (1, [map_key_clear KEY_UNKNOWN, input_set_capability KEY_FN])) ∧
    (usage.usage_index = 0x9 → lenovo_input_mapping_tpx1cover usage =
      (1, [map_key_clear KEY_UNKNOWN, input_set_capability KEY_MICMUTE])) ∧
    (usage.usage_index = 0xa → lenovo_input_mapping_tpx1cover usage =
      (1, [map_key_clear KEY_UNKNOWN, input_set_capability KEY_CONFIG])) ∧
    (usage.usage_index = 0xb → lenovo_input_mapping_tpx1cover usage =
      (1, [map_key_clear KEY_UNKNOWN, input_set_capability KEY_SEARCH])) ∧
    (usage.usage_index = 0xc → lenovo_input_mapping_tpx1cover usage =
      (1, [map_key_clear KEY_UNKNOWN, input_set_capability KEY_SETUP])) ∧
    (usage.usage_index = 0xd → lenovo_input_mapping_tpx1cover usage =
      (1, [map_key_clear KEY_UNKNOWN, input_set_capability KEY_SWITCHVIDEOMODE])) ∧
    (usage.usage_index = 0xe → lenovo_input_mapping_tpx1cover usage =
      (1, [map_key_clear KEY_UNKNOWN, input_set_capability KEY_RFKILL])) ∧
    (usage.usage_index ∉ [0x8, 0x9, 0xa, 0xb, 0xc, 0xd, 0xe] →
      lenovo_input_mapping_tpx1cover usage = (-1, [map_key_clear KEY_UNKNOWN])) := by
  refine ⟨?_, ?_, ?_, ?_, ?_, ?_, ?_, ?_⟩
  all_goals intro hi
  all_goals simp_all [lenovo_input_mapping_tpx1cover, vendor_usage_index_mapping]

/-- Witness for C2 at usage index 0x8 (Fn) and at the undefined index 0x3. -/
theorem input_mapping_vendor_usage_index_witness :
    lenovo_input_mapping_tpx1cover ⟨0x000c0001, 0x8⟩ =
      (1, [map_key_clear KEY_UNKNOWN, input_set_capability KEY_FN]) ∧
    lenovo_input_mapping_tpx1cover ⟨0x000c0001, 0x3⟩ = (-1, [map_key_clear KEY_UNKNOWN]) :=
  ⟨(input_mapping_vendor_usage_index ⟨0x000c0001, 0x8⟩ (by decide) (by decide)).1 (by decide),
   (input_mapping_vendor_usage_index ⟨0x000c0001, 0x3⟩ (by decide) (by decide)).2.2.2.2.2.2.2
     (by decide)⟩

/-! ## Event translator: theorems -/

/-- Two `input_key_sync` calls in a row are one press/release delivery. -/
theorem input_key_sync_twice (w : World) (hdev : Nat) (k : Key) :
    input_key_sync (input_key_sync w hdev k 1) hdev k 0 = w.with_press_release hdev k := by
  simp [input_key_sync, World.with_press_release, World.set_dev]
  funext i
  by_cases h : i = hdev <;> simp [h]

/-- C3: on the Consumer-page vendor usage 0x0001 with value 1, usage index
0x9 .. 0xe emits press, sync, release, sync of mic-mute, config, search, setup,
video-mode switch, radio-kill and returns 1; every other input (another value,
index 0x8, another index, another usage) leaves the world as it is and
returns 0. -/
theorem event_press_release (w : World) (hdev : Nat) (usage : hid_usage) (value : Int) :
    (usage.hid &&& HID_USAGE_PAGE = HID_UP_CONSUMER → usage.hid &&& HID_USAGE = 0x0001 →
      value = 1 →
      (usage.usage_index = 0x9 → lenovo_event_tpx1cover w hdev usage value =
        (1, w.with_press_release hdev KEY_MICMUTE)) ∧
      (usage.usage_index = 0xa → lenovo_event_tpx1cover w hdev usage value =
        (1, w.with_press_release hdev KEY_CONFIG)) ∧
      (usage.usage_index = 0xb → lenovo_event_tpx1cover w hdev usage value =
        (1, w.with_press_release hdev KEY_SEARCH)) ∧
      (usage.usage_index = 0xc → lenovo_event_tpx1cover w hdev usage value =
        (1, w.with_press_release hdev KEY_SETUP)) ∧
      (usage.usage_index = 0xd → lenovo_event_tpx1cover w hdev usage value =
        (1, w.with_press_release hdev KEY_SWITCHVIDEOMODE)) ∧
      (usage.usage_index = 0xe → lenovo_event_tpx1cover w hdev usage value =
        (1, w.with_press_release hdev KEY_RFKILL))) ∧
    (¬ (usage.hid &&& HID_USAGE_PAGE = HID_UP_CONSUMER ∧ usage.hid &&& HID_USAGE = 0x0001 ∧
        value = 1 ∧ usage.usage_index ∈ [0x9, 0xa, 0xb, 0xc, 0xd, 0xe]) →
      lenovo_event_tpx1cover w hdev usage value = (0, w)) := by
  refine ⟨fun hp hc hv => ⟨?_, ?_, ?_, ?_, ?_, ?_⟩, fun hn => ?_⟩
  · intro hi; simp [lenovo_event_tpx1cover, hp, hc, hv, hi, input_key_sync_twice]
  · intro hi; simp [lenovo_event_tpx1cover, hp, hc, hv, hi, input_key_sync_twice]
  · intro hi; simp [lenovo_event_tpx1cover, hp, hc, hv, hi, input_key_sync_twice]
  · intro hi; simp [lenovo_event_tpx1cover, hp, hc, hv, hi, input_key_sync_twice]
  · intro hi; simp [lenovo_event_tpx1cover, hp, hc, hv, hi, input_key_sync_twice]
  · intro hi; simp [lenovo_event_tpx1cover, hp, hc, hv, hi, input_key_sync_twice]
  · unfold lenovo_event_tpx1cover
    by_cases hpc : usage.hid &&& HID_USAGE_PAGE = HID_UP_CONSUMER ∧ usage.hid &&& HID_USAGE = 0x0001
    · by_cases hv : value = 1
      · have h9 : usage.usage_index ≠ 0x9 := fun h => hn ⟨hpc.1, hpc.2, hv, by simp [h]⟩
        have ha : usage.usage_index ≠ 0xa := fun h => hn ⟨hpc.1, hpc.2, hv, by simp [h]⟩
        have hb : usage.usage_index ≠ 0xb := fun h => hn ⟨hpc.1, hpc.2, hv, by simp [h]⟩
        have hc : usage.usage_index ≠ 0xc := fun h => hn ⟨hpc.1, hpc.2, hv, by simp [h]⟩
        have hd : usage.usage_index ≠ 0xd := fun h => hn ⟨hpc.1, hpc.2, hv, by simp [h]⟩
        have he : usage.usage_index ≠ 0xe := fun h => hn ⟨hpc.1, hpc.2, hv, by simp [h]⟩
        simp [hpc, h9, ha, hb, hc, hd, he]
      · simp [hpc, hv]
    · simp [hpc]

/-- C3 witness: index 0x9 with value 1 emits the mic-mute pair, value 0 nothing. -/
theorem event_press_release_witness :
    lenovo_event_tpx1cover (boot_world fun _ => true) 1 ⟨0x000c0001, 0x9⟩ 1 =
      (1, (boot_world fun _ => true).with_press_release 1 KEY_MICMUTE) ∧
    lenovo_event_tpx1cover (boot_world fun _ => true) 1 ⟨0x000c0001, 0x9⟩ 0 =
      (0, boot_world fun _ => true) :=
  ⟨((event_press_release (boot_world fun _ => true) 1 ⟨0x000c0001, 0x9⟩ 1).1
      (by decide) (by decide) (by decide)).1 (by decide),
   (event_press_release (boot_world fun _ => true) 1 ⟨0x000c0001, 0x9⟩ 0).2 (by decide)⟩

/-! ## LED controller: theorems -/

theorem and_one_shiftLeft_ne_zero (s n : Nat) : (s &&& (1 <<< n) ≠ 0) ↔ s.testBit n = true := by
  rw [Nat.one_shiftLeft]
  constructor
  · intro h
    by_contra hb
    apply h
    apply Nat.eq_of_testBit_eq
    intro i
    simp only [Nat.testBit_and, Nat.testBit_two_pow, Nat.zero_testBit]
    by_cases hi : n = i
    · subst hi; simp [hb]
    · simp [hi]
  · intro h h0
    have := congrArg (fun x => x.testBit n) h0
    simp [Nat.testBit_two_pow, h] at this

theorem testBit_set (s n j : Nat) :
    ((s ||| (1 <<< n)) % 2 ^ 16).testBit j
      = (decide (j < 16) && (s.testBit j || decide (n = j))) := by
  rw [Nat.testBit_mod_two_pow, Nat.one_shiftLeft, Nat.testBit_or, Nat.testBit_two_pow]

theorem testBit_clear (s n j : Nat) :
    ((s &&& (0xffffffff ^^^ (1 <<< n))) % 2 ^ 16).testBit j
      = (decide (j < 16) && (s.testBit j && !decide (n = j))) := by
  have h : (0xffffffff : Nat) = 2 ^ 32 - 1 := by norm_num
  rw [h]
  simp only [Nat.testBit_mod_two_pow, Nat.one_shiftLeft, Nat.testBit_two_pow, Nat.testBit_and,
    Nat.testBit_xor, Nat.testBit_two_pow_sub_one]
  by_cases hj : j < 16
  · have : j < 32 := by omega
    by_cases hnj : n = j <;> simp [hj, this, hnj]
  · simp [hj]

/-- Bit `j` of the stored mask after a `brightness_set` on bit `n`. -/
theorem testBit_led_state_store (s n j value : Nat) :
    (led_state_store s n value).testBit j =
      if value = LED_OFF then (decide (j < 16) && (s.testBit j && !decide (n = j)))
      else (decide (j < 16) && (s.testBit j || decide (n = j))) := by
  unfold led_state_store
  split
  · exact testBit_clear s n j
  · exact testBit_set s n j

theorem LedField.nr_lt (fld : LedField) : fld.nr < 16 := by
  cases fld <;> simp [LedField.nr]

theorem LedField.nr_inj {a b : LedField} (h : a.nr = b.nr) : a = b := by
  cases a <;> cases b <;> simp [LedField.nr] at h <;> rfl

/-- What one `brightness_set` call on an LED of the live driver data does. -/
theorem led_set_eq (w : World) (hdev : Nat) (d : lenovo_drvdata_tpx1cover) (fld : LedField)
    (value : Nat) (h : (w.devs hdev).drvdata = some d) :
    lenovo_led_brightness_set_tpx1cover w ⟨hdev, d.addr, fld⟩ value =
      match report_id_hash (w.devs hdev) HID_OUTPUT_REPORT 9 with
      | none => hid_set_drvdata w hdev
          (some { d with led_state := led_state_store d.led_state fld.nr value })
      | some _ => hid_hw_request (hid_set_drvdata w hdev
          (some { d with led_state := led_state_store d.led_state fld.nr value })) hdev 9
          fld.selector
          (if (led_state_store d.led_state fld.nr value).testBit fld.nr then 0x02 else 0x01) := by
  have hr : ∀ p, report_id_hash ((hid_set_drvdata w hdev p).devs hdev) HID_OUTPUT_REPORT 9
      = report_id_hash (w.devs hdev) HID_OUTPUT_REPORT 9 := by
    intro p; simp [hid_set_drvdata, World.set_dev, report_id_hash]
  cases fld <;>
    simp only [lenovo_led_brightness_set_tpx1cover, h, led_ptr, hr, LedField.nr,
      LedField.selector, and_one_shiftLeft_ne_zero, LedPtr.mk.injEq, true_and, reduceCtorEq,
      if_true, if_false]

/-- A `brightness_set` call changes nothing, or stores new driver data on the
parent device and possibly issues one request. -/
theorem led_set_cases (w : World) (p : LedPtr) (value : Nat) :
    lenovo_led_brightness_set_tpx1cover w p value = w ∨
    (∃ d, lenovo_led_brightness_set_tpx1cover w p value = hid_set_drvdata w p.hdev (some d)) ∨
    (∃ d a b c e, lenovo_led_brightness_set_tpx1cover w p value =
      hid_hw_request (hid_set_drvdata w p.hdev (some d)) a b c e) := by
  simp only [lenovo_led_brightness_set_tpx1cover]
  cases (w.devs p.hdev).drvdata with
  | none => exact Or.inl rfl
  | some drv_data =>
    simp only
    split
    · exact Or.inl rfl
    · split
      · exact Or.inr (Or.inl ⟨_, rfl⟩)
      · exact Or.inr (Or.inr ⟨_, _, _, _, _, rfl⟩)

/-- The callbacks never touch the parsed reports of any device. -/
theorem led_set_report_enum (w : World) (p : LedPtr) (value i : Nat) :
    ((lenovo_led_brightness_set_tpx1cover w p value).devs i).report_enum
      = (w.devs i).report_enum := by
  rcases led_set_cases w p value with h | ⟨d, h⟩ | ⟨d, a, b, c, e, h⟩ <;> rw [h] <;>
    by_cases hi : i = p.hdev <;> simp [hid_set_drvdata, hid_hw_request, World.set_dev, hi]

theorem led_set_drvdata (w : World) (hdev : Nat) (d : lenovo_drvdata_tpx1cover) (fld : LedField)
    (value : Nat) (h : (w.devs hdev).drvdata = some d) :
    ((lenovo_led_brightness_set_tpx1cover w ⟨hdev, d.addr, fld⟩ value).devs hdev).drvdata =
      some { d with led_state := led_state_store d.led_state fld.nr value } := by
  rw [led_set_eq w hdev d fld value h]
  cases report_id_hash (w.devs hdev) HID_OUTPUT_REPORT 9 <;>
    simp [hid_set_drvdata, hid_hw_request, World.set_dev]

theorem led_set_hw_requests (w : World) (hdev : Nat) (d : lenovo_drvdata_tpx1cover)
    (fld : LedField) (value : Nat) (h : (w.devs hdev).drvdata = some d) :
    (lenovo_led_brightness_set_tpx1cover w ⟨hdev, d.addr, fld⟩ value).hw_requests =
      w.hw_requests ++
        match report_id_hash (w.devs hdev) HID_OUTPUT_REPORT 9 with
        | none => []
        | some _ => [⟨hdev, 9, fld.selector,
            if (led_state_store d.led_state fld.nr value).testBit fld.nr then 0x02 else 0x01⟩] := by
  rw [led_set_eq w hdev d fld value h]
  cases report_id_hash (w.devs hdev) HID_OUTPUT_REPORT 9 <;>
    simp [hid_set_drvdata, hid_hw_request, World.set_dev]

theorem led_set_table (w : World) (p : LedPtr) (value : Nat) :
    (lenovo_led_brightness_set_tpx1cover w p value).hid_lenovo_led_table
      = w.hid_lenovo_led_table := by
  rcases led_set_cases w p value with h | ⟨d, h⟩ | ⟨d, a, b, c, e, h⟩ <;> rw [h] <;>
    simp [hid_set_drvdata, hid_hw_request, World.set_dev]

theorem led_set_led_class_calls (w : World) (p : LedPtr) (value : Nat) :
    (lenovo_led_brightness_set_tpx1cover w p value).led_class_calls = w.led_class_calls := by
  rcases led_set_cases w p value with h | ⟨d, h⟩ | ⟨d, a, b, c, e, h⟩ <;> rw [h] <;>
    simp [hid_set_drvdata, hid_hw_request, World.set_dev]

theorem led_get_eq (w : World) (hdev : Nat) (d : lenovo_drvdata_tpx1cover) (fld : LedField)
    (h : (w.devs hdev).drvdata = some d) :
    lenovo_led_brightness_get_tpx1cover w ⟨hdev, d.addr, fld⟩ =
      if d.led_state.testBit fld.nr then LED_FULL else LED_OFF := by
  cases fld <;>
    simp only [lenovo_led_brightness_get_tpx1cover, h, led_ptr, LedField.nr,
      and_one_shiftLeft_ne_zero, LedPtr.mk.injEq, true_and, reduceCtorEq, if_true, if_false]

/-- C4: on a device with output report 9, setting LED `fld` to a non-off
value and then to off leaves its bit of `led_state` cleared (so the LED reads
back off) and issues exactly two set-report requests on report 9:
(selector, 0x02) then (selector, 0x01), with selector 0x64 / 0x74 / 0x54 for
mute / micmute / fnlock. -/
theorem led_on_then_off (w : World) (hdev : Nat) (d : lenovo_drvdata_tpx1cover) (fld : LedField)
    (value : Nat) (h : (w.devs hdev).drvdata = some d)
    (hreport : (report_id_hash (w.devs hdev) HID_OUTPUT_REPORT 9).isSome = true)
    (hvalue : value ≠ LED_OFF) :
    (((lenovo_led_brightness_set_tpx1cover
        (lenovo_led_brightness_set_tpx1cover w ⟨hdev, d.addr, fld⟩ value)
        ⟨hdev, d.addr, fld⟩ LED_OFF).devs hdev).drvdata.map
          fun d2 => d2.led_state.testBit fld.nr) = some false ∧
    lenovo_led_brightness_get_tpx1cover
      (lenovo_led_brightness_set_tpx1cover
        (lenovo_led_brightness_set_tpx1cover w ⟨hdev, d.addr, fld⟩ value)
        ⟨hdev, d.addr, fld⟩ LED_OFF) ⟨hdev, d.addr, fld⟩ = LED_OFF ∧
    (lenovo_led_brightness_set_tpx1cover
        (lenovo_led_brightness_set_tpx1cover w ⟨hdev, d.addr, fld⟩ value)
        ⟨hdev, d.addr, fld⟩ LED_OFF).hw_requests =
      w.hw_requests ++ [⟨hdev, 9, fld.selector, 0x02⟩, ⟨hdev, 9, fld.selector, 0x01⟩] ∧
    fld.selector = (match fld with
      | .led_mute => 0x64 | .led_micmute => 0x74 | .led_fnlock => 0x54) := by
  have h1 := led_set_drvdata w hdev d fld value h
  have r1 := led_set_hw_requests w hdev d fld value h
  have hrep : report_id_hash ((lenovo_led_brightness_set_tpx1cover w ⟨hdev, d.addr, fld⟩
      value).devs hdev) HID_OUTPUT_REPORT 9 = report_id_hash (w.devs hdev) HID_OUTPUT_REPORT 9 := by
    simp [report_id_hash, led_set_report_enum]
  have h2 := led_set_drvdata _ hdev _ fld LED_OFF h1
  have r2 := led_set_hw_requests _ hdev _ fld LED_OFF h1
  have g2 := led_get_eq _ hdev _ fld h2
  simp only at h2 r2 g2
  obtain ⟨r, hr⟩ := Option.isSome_iff_exists.mp hreport
  have hon : (led_state_store d.led_state fld.nr value).testBit fld.nr = true := by
    simp [testBit_led_state_store, hvalue, fld.nr_lt]
  have hoff : ∀ s, (led_state_store s fld.nr LED_OFF).testBit fld.nr = false := by
    intro s; simp [testBit_led_state_store]
  refine ⟨?_, ?_, ?_, ?_⟩
  · rw [h2]; simp [hoff]
  · rw [g2]; simp [hoff]
  · rw [r2, r1, hrep, hr]; simp [hon, hoff]
  · cases fld <;> rfl

/-- C4 witness: micmute LED of device 1, all sixteen mask bits initially set. -/
theorem led_on_then_off_witness :
    (((lenovo_led_brightness_set_tpx1cover
        (lenovo_led_brightness_set_tpx1cover (led_world 0xffff) ⟨1, 0, .led_micmute⟩ LED_FULL)
        ⟨1, 0, .led_micmute⟩ LED_OFF).devs 1).drvdata.map
          fun d2 => d2.led_state.testBit 1) = some false ∧
    (lenovo_led_brightness_set_tpx1cover
        (lenovo_led_brightness_set_tpx1cover (led_world 0xffff) ⟨1, 0, .led_micmute⟩ LED_FULL)
        ⟨1, 0, .led_micmute⟩ LED_OFF).hw_requests = [⟨1, 9, 0x74, 0x02⟩, ⟨1, 9, 0x74, 0x01⟩] :=
  have h := led_on_then_off (led_world 0xffff) 1 (owning_drvdata "0003:17EF:60B5.0001" 1 0 0xffff) .led_micmute LED_FULL
    rfl (by decide) (by decide)
  ⟨h.1, h.2.2.1⟩

/-- The driver data of the device after a sequence of `brightness_set` calls
keeps its address; the read-back of LED `n` is decided by the last call on `n`. -/
theorem run_sets_get (calls : List (LedField × Nat)) (w : World) (hdev : Nat)
    (d : lenovo_drvdata_tpx1cover) (n : LedField) (h : (w.devs hdev).drvdata = some d) :
    lenovo_led_brightness_get_tpx1cover (run_sets w hdev d.addr calls) ⟨hdev, d.addr, n⟩ =
      match last_request n calls with
      | some v => if v ≠ LED_OFF then LED_FULL else LED_OFF
      | none => if d.led_state.testBit n.nr then LED_FULL else LED_OFF := by
  induction calls generalizing w d with
  | nil => simpa [run_sets, last_request] using led_get_eq w hdev d n h
  | cons c rest ih =>
    obtain ⟨fld, value⟩ := c
    have h1 := led_set_drvdata w hdev d fld value h
    have := ih (lenovo_led_brightness_set_tpx1cover w ⟨hdev, d.addr, fld⟩ value) _ h1
    simp only at this
    simp only [run_sets, last_request, this]
    cases last_request n rest with
    | some v => rfl
    | none =>
      simp only [testBit_led_state_store]
      by_cases hf : fld = n
      · subst hf
        by_cases hv : value = LED_OFF <;> simp [hv, fld.nr_lt]
      · have hne : ¬ fld.nr = n.nr := fun e => hf (LedField.nr_inj e)
        by_cases hv : value = LED_OFF <;> simp [hv, hf, hne, n.nr_lt]

/-- C5: after any sequence of `brightness_set` calls on the LEDs of one
device, from any initial mask, `brightness_get` on LED `n` is on exactly when
the last call on `n` asked for a non-off value, and is the initial bit `n`
when no call was on `n`; calls on other LEDs do not count, and the result is
the same whatever reports the device has (with or without output report 9). -/
theorem led_get_reflects_last_set (w : World) (hdev : Nat) (d : lenovo_drvdata_tpx1cover)
    (n : LedField) (calls : List (LedField × Nat))
    (h : (w.devs hdev).drvdata = some d) :
    lenovo_led_brightness_get_tpx1cover (run_sets w hdev d.addr calls) ⟨hdev, d.addr, n⟩ =
      (match last_request n calls with
      | some v => if v ≠ LED_OFF then LED_FULL else LED_OFF
      | none => if d.led_state.testBit n.nr then LED_FULL else LED_OFF) ∧
    ∀ reports,
      lenovo_led_brightness_get_tpx1cover
        (run_sets (w.with_reports hdev reports) hdev d.addr calls) ⟨hdev, d.addr, n⟩ =
      lenovo_led_brightness_get_tpx1cover (run_sets w hdev d.addr calls) ⟨hdev, d.addr, n⟩ := by
  refine ⟨run_sets_get calls w hdev d n h, fun reports => ?_⟩
  have h2 : ((w.with_reports hdev reports).devs hdev).drvdata = some d := by
    simp [World.with_reports, World.set_dev, h]
  rw [run_sets_get calls w hdev d n h, run_sets_get calls _ hdev d n h2]

/-- C5 witness: mask 0b101, calls mute-on, fnlock-off, mute-off, on a device
with report 9 and on the same device stripped of all reports. -/
theorem led_get_reflects_last_set_witness :
    lenovo_led_brightness_get_tpx1cover
      (run_sets (led_world 5) 1 0 [(.led_mute, 255), (.led_fnlock, 0), (.led_mute, 0)])
      ⟨1, 0, .led_fnlock⟩ = LED_OFF ∧
    lenovo_led_brightness_get_tpx1cover
      (run_sets ((led_world 5).with_reports 1 fun _ => []) 1 0
        [(.led_mute, 255), (.led_fnlock, 0), (.led_mute, 0)])
      ⟨1, 0, .led_fnlock⟩ = LED_OFF :=
  have h := led_get_reflects_last_set (led_world 5) 1 (owning_drvdata "0003:17EF:60B5.0001" 1 0 5) .led_fnlock
    [(.led_mute, 255), (.led_fnlock, 0), (.led_mute, 0)] rfl
  ⟨h.1, (h.2 fun _ => []).trans h.1⟩

/-! ## Probe: theorems -/

theorem report_of_validate {hdev : hid_device} {type : hid_report_type} {id fi rc : Nat}
    (h : (hid_validate_values hdev type id fi rc).isSome = true) :
    (report_id_hash hdev type id).isSome = true := by
  unfold hid_validate_values at h
  cases hr : report_id_hash hdev type id with
  | none => simp [hr] at h
  | some r => rfl

/-- A matching special-function report set contains output report 9. -/
theorem report9_of_special_match {hdev : hid_device}
    (h : special_functions_report_match hdev = true) :
    (report_id_hash hdev HID_OUTPUT_REPORT 9).isSome = true := by
  simp only [special_functions_report_match, Bool.and_eq_true] at h
  exact report_of_validate h.1.1.1.1.2

/-- The state of the world after `lenovo_probe_tpx1cover_configure` on a
device with driver data `d` and output report 9. -/
theorem configure_spec (w : World) (hdev : Nat) (d : lenovo_drvdata_tpx1cover)
    (h : (w.devs hdev).drvdata = some d)
    (hr : (report_id_hash (w.devs hdev) HID_OUTPUT_REPORT 9).isSome = true) :
    (lenovo_probe_tpx1cover_configure w hdev).1 = 0 ∧
    (lenovo_probe_tpx1cover_configure w hdev).2.hw_requests = w.hw_requests ++
      [⟨hdev, 9, 0x54, 0x20⟩, ⟨hdev, 9, 0x54, 0x08⟩, ⟨hdev, 9, 0xA0, 0x02⟩,
       ⟨hdev, 9, 0x64,
        if (w.hid_lenovo_led_table HID_LENOVO_LED_MUTE).state ≠ 0 then 0x02 else 0x01⟩,
       ⟨hdev, 9, 0x74,
        if (w.hid_lenovo_led_table HID_LENOVO_LED_MICMUTE).state ≠ 0 then 0x02 else 0x01⟩,
       ⟨hdev, 9, 0x54, 0x02⟩] ∧
    (lenovo_probe_tpx1cover_configure w hdev).2.led_class_calls = w.led_class_calls ∧
    (lenovo_probe_tpx1cover_configure w hdev).2.hid_lenovo_led_table = w.hid_lenovo_led_table ∧
    ∃ s, ((lenovo_probe_tpx1cover_configure w hdev).2.devs hdev).drvdata =
      some { d with led_state := s } := by
  obtain ⟨r, hr⟩ := Option.isSome_iff_exists.mp hr
  have e : lenovo_probe_tpx1cover_configure w hdev = (0,
      lenovo_led_brightness_set_tpx1cover
        (lenovo_led_brightness_set_tpx1cover
          (lenovo_led_brightness_set_tpx1cover
            (hid_hw_request (hid_hw_request (hid_hw_request w hdev 9 0x54 0x20) hdev 9 0x54 0x08)
              hdev 9 0xA0 0x02)
            ⟨hdev, d.addr, .led_mute⟩
            (if (w.hid_lenovo_led_table HID_LENOVO_LED_MUTE).state ≠ 0 then LED_FULL else LED_OFF))
          ⟨hdev, d.addr, .led_micmute⟩
          (if (w.hid_lenovo_led_table HID_LENOVO_LED_MICMUTE).state ≠ 0
            then LED_FULL else LED_OFF))
        ⟨hdev, d.addr, .led_fnlock⟩ LED_FULL) := by
    simp only [lenovo_probe_tpx1cover_configure, h, hr, hid_hw_wait, led_ptr, led_set_table]
    rfl
  rw [e]
  generalize hw3 : hid_hw_request (hid_hw_request (hid_hw_request w hdev 9 0x54 0x20) hdev 9 0x54
    0x08) hdev 9 0xA0 0x02 = w3
  have h3 : (w3.devs hdev).drvdata = some d := by subst hw3; simpa [hid_hw_request] using h
  have r3 : report_id_hash (w3.devs hdev) HID_OUTPUT_REPORT 9 = some r := by
    subst hw3; simpa [hid_hw_request] using hr
  have q3 : w3.hw_requests = w.hw_requests ++
      [⟨hdev, 9, 0x54, 0x20⟩, ⟨hdev, 9, 0x54, 0x08⟩, ⟨hdev, 9, 0xA0, 0x02⟩] := by
    subst hw3; simp [hid_hw_request]
  have t3 : w3.hid_lenovo_led_table = w.hid_lenovo_led_table := by subst hw3; rfl
  have c3 : w3.led_class_calls = w.led_class_calls := by subst hw3; rfl
  generalize hv1 : (if (w.hid_lenovo_led_table HID_LENOVO_LED_MUTE).state ≠ 0 then LED_FULL
    else LED_OFF) = v1
  generalize hv2 : (if (w.hid_lenovo_led_table HID_LENOVO_LED_MICMUTE).state ≠ 0 then LED_FULL
    else LED_OFF) = v2
  have h4 := led_set_drvdata w3 hdev d .led_mute v1 h3
  have q4 := led_set_hw_requests w3 hdev d .led_mute v1 h3
  have r4 : report_id_hash ((lenovo_led_brightness_set_tpx1cover w3 ⟨hdev, d.addr, .led_mute⟩
      v1).devs hdev) HID_OUTPUT_REPORT 9 = some r := by
    simpa [report_id_hash, led_set_report_enum] using r3
  have c4 := (led_set_led_class_calls w3 ⟨hdev, d.addr, .led_mute⟩ v1).trans c3
  have t4 := (led_set_table w3 ⟨hdev, d.addr, .led_mute⟩ v1).trans t3
  generalize lenovo_led_brightness_set_tpx1cover w3 ⟨hdev, d.addr, .led_mute⟩ v1 = w4 at *
  have h5 := led_set_drvdata w4 hdev _ .led_micmute v2 h4
  have q5 := led_set_hw_requests w4 hdev _ .led_micmute v2 h4
  have r5 : report_id_hash ((lenovo_led_brightness_set_tpx1cover w4 ⟨hdev, d.addr, .led_micmute⟩
      v2).devs hdev) HID_OUTPUT_REPORT 9 = some r := by
    simpa [report_id_hash, led_set_report_enum] using r4
  simp only at h5 q5
  have c5 := (led_set_led_class_calls w4 ⟨hdev, d.addr, .led_micmute⟩ v2).trans c4
  have t5 := (led_set_table w4 ⟨hdev, d.addr, .led_micmute⟩ v2).trans t4
  generalize lenovo_led_brightness_set_tpx1cover w4 ⟨hdev, d.addr, .led_micmute⟩ v2 = w5 at *
  have h6 := led_set_drvdata w5 hdev _ .led_fnlock LED_FULL h5
  have q6 := led_set_hw_requests w5 hdev _ .led_fnlock LED_FULL h5
  simp only at h6 q6
  refine ⟨rfl, ?_, ?_, ?_, ⟨_, h6⟩⟩
  · simp only [q6, q5, q4, q3, r3, r4, r5, testBit_led_state_store, LedField.nr,
      LedField.selector, ← hv1, ← hv2]
    by_cases m1 : (w.hid_lenovo_led_table HID_LENOVO_LED_MUTE).state = 0 <;>
      by_cases m2 : (w.hid_lenovo_led_table HID_LENOVO_LED_MICMUTE).state = 0 <;>
      simp [m1, m2, LED_FULL, LED_OFF]
  · simp only [led_set_led_class_calls, c5]
  · simp only [led_set_table, t5]

theorem register_alloc_ok (w : World) (p : LedPtr) :
    (led_classdev_register w p).alloc_ok = w.alloc_ok := rfl

theorem register_alloc_calls (w : World) (p : LedPtr) :
    (led_classdev_register w p).alloc_calls = w.alloc_calls := rfl

theorem unregister_alloc_ok (w : World) (p : LedPtr) :
    (led_classdev_unregister w p).alloc_ok = w.alloc_ok := rfl

theorem unregister_alloc_calls (w : World) (p : LedPtr) :
    (led_classdev_unregister w p).alloc_calls = w.alloc_calls := rfl

theorem set_table_dev_alloc_ok (w : World) (i : LedNum) (p : Option LedPtr) :
    (w.set_table_dev i p).alloc_ok = w.alloc_ok := rfl

theorem set_table_dev_alloc_calls (w : World) (i : LedNum) (p : Option LedPtr) :
    (w.set_table_dev i p).alloc_calls = w.alloc_calls := rfl

/-- The success path of the special-function probe up to the call of
`lenovo_probe_tpx1cover_configure`. -/
theorem special_functions_success (w : World) (hdev : Nat)
    (hm : special_functions_report_match (w.devs hdev) = true)
    (ha : ∀ k, w.alloc_ok k = true) :
    ∃ w1, lenovo_probe_tpx1cover_special_functions w hdev =
        lenovo_probe_tpx1cover_configure w1 hdev ∧
      (w1.devs hdev).drvdata =
        some (owning_drvdata (w.devs hdev).dev_name hdev w.alloc_calls 0) ∧
      (w1.devs hdev).report_enum = (w.devs hdev).report_enum ∧
      w1.hw_requests = w.hw_requests ∧
      w1.led_class_calls = w.led_class_calls ++
        [led_class_call.register ⟨hdev, w.alloc_calls, .led_mute⟩,
         led_class_call.register ⟨hdev, w.alloc_calls, .led_micmute⟩,
         led_class_call.register ⟨hdev, w.alloc_calls, .led_fnlock⟩] ∧
      (∀ i, (w1.hid_lenovo_led_table i).state = (w.hid_lenovo_led_table i).state) ∧
      (w1.hid_lenovo_led_table HID_LENOVO_LED_MUTE).dev
        = some ⟨hdev, w.alloc_calls, .led_mute⟩ ∧
      (w1.hid_lenovo_led_table HID_LENOVO_LED_MICMUTE).dev
        = some ⟨hdev, w.alloc_calls, .led_micmute⟩ ∧
      (w1.hid_lenovo_led_table HID_LENOVO_LED_FNLOCK).dev
        = some ⟨hdev, w.alloc_calls, .led_fnlock⟩ := by
  refine ⟨?w1, ?e, ?_, ?_, ?_, ?_, ?_, ?_, ?_, ?_⟩
  case e =>
    simp only [lenovo_probe_tpx1cover_special_functions, hm, devm_kzalloc, ha, if_true,
      register_alloc_ok, register_alloc_calls, set_table_dev_alloc_ok, set_table_dev_alloc_calls,
      Bool.true_eq_false, if_false]
    exact rfl
  · simp [hid_set_drvdata, World.set_dev, owning_drvdata, lenovo_drvdata_tpx1cover.zero]
  · simp [hid_set_drvdata, World.set_dev, led_classdev_register, World.set_table_dev]
  · simp [hid_set_drvdata, World.set_dev, led_classdev_register, World.set_table_dev]
  · simp [hid_set_drvdata, World.set_dev, led_classdev_register, World.set_table_dev, led_ptr,
      lenovo_drvdata_tpx1cover.zero]
  · intro i
    simp only [hid_set_drvdata, World.set_dev, led_classdev_register, World.set_table_dev]
    split_ifs <;> simp_all
  · simp [hid_set_drvdata, World.set_dev, led_classdev_register, World.set_table_dev, led_ptr,
      lenovo_drvdata_tpx1cover.zero, HID_LENOVO_LED_MUTE, HID_LENOVO_LED_MICMUTE,
      HID_LENOVO_LED_FNLOCK]
  · simp [hid_set_drvdata, World.set_dev, led_classdev_register, World.set_table_dev, led_ptr,
      lenovo_drvdata_tpx1cover.zero, HID_LENOVO_LED_MUTE, HID_LENOVO_LED_MICMUTE,
      HID_LENOVO_LED_FNLOCK]
  · simp [hid_set_drvdata, World.set_dev, led_classdev_register, World.set_table_dev, led_ptr,
      lenovo_drvdata_tpx1cover.zero, HID_LENOVO_LED_MUTE, HID_LENOVO_LED_MICMUTE,
      HID_LENOVO_LED_FNLOCK]

/-- When the special-function probe returns 0, so does `lenovo_probe_tpx1cover`,
in the same world. -/
theorem probe_of_special_functions_zero (w : World) (hdev : Nat)
    (h : (lenovo_probe_tpx1cover_special_functions w hdev).1 = 0) :
    lenovo_probe_tpx1cover w hdev = (0, (lenovo_probe_tpx1cover_special_functions w hdev).2) := by
  simp [lenovo_probe_tpx1cover, h]

/-- C6: on a device with the special-function report set, when every
allocation succeeds, `lenovo_probe_tpx1cover` returns 0, registers exactly the
three LEDs mute, micmute, fnlock (in this order), and issues exactly six
set-report requests on output report 9: (0x54,0x20), (0x54,0x08), (0xA0,0x02),
(0x64, c_mute), (0x74, c_micmute), (0x54,0x02), where c is 0x02 when the
registry state of that LED is non-zero and 0x01 otherwise. -/
theorem probe_special_functions_ok (w : World) (hdev : Nat)
    (hm : special_functions_report_match (w.devs hdev) = true)
    (ha : ∀ k, w.alloc_ok k = true) :
    (lenovo_probe_tpx1cover w hdev).1 = 0 ∧
    (lenovo_probe_tpx1cover w hdev).2.led_class_calls = w.led_class_calls ++
      [led_class_call.register ⟨hdev, w.alloc_calls, .led_mute⟩,
       led_class_call.register ⟨hdev, w.alloc_calls, .led_micmute⟩,
       led_class_call.register ⟨hdev, w.alloc_calls, .led_fnlock⟩] ∧
    (lenovo_probe_tpx1cover w hdev).2.hw_requests = w.hw_requests ++
      [⟨hdev, 9, 0x54, 0x20⟩, ⟨hdev, 9, 0x54, 0x08⟩, ⟨hdev, 9, 0xA0, 0x02⟩,
       ⟨hdev, 9, 0x64,
        if (w.hid_lenovo_led_table HID_LENOVO_LED_MUTE).state ≠ 0 then 0x02 else 0x01⟩,
       ⟨hdev, 9, 0x74,
        if (w.hid_lenovo_led_table HID_LENOVO_LED_MICMUTE).state ≠ 0 then 0x02 else 0x01⟩,
       ⟨hdev, 9, 0x54, 0x02⟩] := by
  obtain ⟨w1, e, hd, hre, hq, hc, hs, -, -, -⟩ := special_functions_success w hdev hm ha
  have h9 : (report_id_hash (w1.devs hdev) HID_OUTPUT_REPORT 9).isSome = true := by
    have := report9_of_special_match hm
    simpa [report_id_hash, hre] using this
  obtain ⟨c1, c2, c3, -, -⟩ := configure_spec w1 hdev _ hd h9
  have hz : (lenovo_probe_tpx1cover_special_functions w hdev).1 = 0 := by rw [e]; exact c1
  rw [probe_of_special_functions_zero w hdev hz, e]
  refine ⟨rfl, ?_, ?_⟩
  · rw [c3, hc]
  · rw [c2, hq, hs, hs]

/-- C6 witness: the special-function interface in the boot world. -/
theorem probe_special_functions_ok_witness :
    (lenovo_probe_tpx1cover (boot_world fun _ => true) 1).1 = 0 ∧
    (lenovo_probe_tpx1cover (boot_world fun _ => true) 1).2.led_class_calls =
      [led_class_call.register ⟨1, 0, .led_mute⟩, led_class_call.register ⟨1, 0, .led_micmute⟩,
       led_class_call.register ⟨1, 0, .led_fnlock⟩] ∧
    (lenovo_probe_tpx1cover (boot_world fun _ => true) 1).2.hw_requests =
      [⟨1, 9, 0x54, 0x20⟩, ⟨1, 9, 0x54, 0x08⟩, ⟨1, 9, 0xA0, 0x02⟩, ⟨1, 9, 0x64, 0x01⟩,
       ⟨1, 9, 0x74, 0x01⟩, ⟨1, 9, 0x54, 0x02⟩] :=
  probe_special_functions_ok (boot_world fun _ => true) 1 (by decide) (fun _ => rfl)

/-- C7 (evaluation at the failing input): on the special-function interface,
when the allocation of the second LED name fails (third `devm_kzalloc` call),
`lenovo_probe_tpx1cover_special_functions` returns -ENOMEM after unregistering
the mute LED, yet the registry handle of the mute LED stays bound to the
released driver data, and `lenovo_probe_tpx1cover` goes on to the keyboard
fallback, stores keyboard state and returns 0. When the driver-data allocation
itself fails (first call), the probe also ends in the keyboard fallback with
return value 0. -/
theorem probe_alloc_failure_evaluated :
    (lenovo_probe_tpx1cover_special_functions (boot_world fun k => k != 2) 1).1 = -ENOMEM ∧
    (lenovo_probe_tpx1cover (boot_world fun k => k != 2) 1).1 = 0 ∧
    (lenovo_probe_tpx1cover (boot_world fun k => k != 2) 1).2.led_class_calls =
      [led_class_call.register ⟨1, 0, .led_mute⟩, led_class_call.unregister ⟨1, 0, .led_mute⟩] ∧
    ((boot_world fun k => k != 2).hid_lenovo_led_table HID_LENOVO_LED_MUTE).dev = none ∧
    ((lenovo_probe_tpx1cover (boot_world fun k => k != 2) 1).2.hid_lenovo_led_table
      HID_LENOVO_LED_MUTE).dev = some ⟨1, 0, .led_mute⟩ ∧
    (lenovo_probe_tpx1cover (boot_world fun k => k != 2) 1).2.led_at ⟨1, 0, .led_mute⟩ = none ∧
    ((lenovo_probe_tpx1cover (boot_world fun k => k != 2) 1).2.devs 1).drvdata =
      some (keyboard_drvdata 3) ∧
    (lenovo_probe_tpx1cover_special_functions (boot_world fun k => k != 0) 1).1 = -ENOMEM ∧
    (lenovo_probe_tpx1cover (boot_world fun k => k != 0) 1).1 = 0 ∧
    ((lenovo_probe_tpx1cover (boot_world fun k => k != 0) 1).2.devs 1).drvdata =
      some (keyboard_drvdata 1) := by
  refine ⟨by decide, by decide, by decide, by decide, by decide, by decide, by decide, by decide,
    by decide, by decide⟩

/-! ## Exported LED setter: theorems -/

/-- C8 (evaluation at the failing input): `hid_lenovo_led_set(-1, on)` passes
the range check `led_num >= HID_LENOVO_LED_MAX` and indexes
`hid_lenovo_led_table[-1]`, outside the table; it does not return -EINVAL. -/
theorem led_set_negative_index_evaluated :
    hid_lenovo_led_set (boot_world fun _ => true) (-1) true = none ∧
    hid_lenovo_led_set (boot_world fun _ => true) (-1) false = none ∧
    (hid_lenovo_led_set (boot_world fun _ => true) 3 true).map (fun r => r.1) = some (-EINVAL) :=
  ⟨rfl, rfl, rfl⟩

/-- An index of 3 or more is rejected with -EINVAL and the world is unchanged. -/
theorem led_set_index_too_large (w : World) (led_num : Int) (state_on : Bool)
    (h : 3 ≤ led_num) : hid_lenovo_led_set w led_num state_on = some (-EINVAL, w) := by
  simp [hid_lenovo_led_set, h]

/-- A negative index is not rejected: the table is accessed out of bounds. -/
theorem led_set_index_negative (w : World) (led_num : Int) (state_on : Bool)
    (h : led_num < 0) : hid_lenovo_led_set w led_num state_on = none := by
  have h1 : ¬ 3 ≤ led_num := by omega
  have h2 : ¬ (0 ≤ led_num ∧ led_num < 3) := by omega
  simp [hid_lenovo_led_set, h1, h2]

/-- For an index in 0..2 with an unbound handle the call stores the requested
state and returns -ENODEV; with a handle to a live LED that has a setter it
stores the state, calls the setter with `LED_FULL` or `LED_OFF`, and returns 0. -/
theorem led_set_in_range (w : World) (i : LedNum) (state_on : Bool) :
    ((w.hid_lenovo_led_table i).dev = none →
      hid_lenovo_led_set w (i.val : Int) state_on =
        some (-ENODEV, w.set_table_state i (if state_on then 1 else 0))) ∧
    (∀ p cdev, (w.hid_lenovo_led_table i).dev = some p → w.led_at p = some cdev →
      hid_lenovo_led_set w (i.val : Int) state_on =
        if cdev.brightness_set = false then
          some (-ENODEV, w.set_table_state i (if state_on then 1 else 0))
        else some (0, lenovo_led_brightness_set_tpx1cover
          (w.set_table_state i (if state_on then 1 else 0)) p
          (if state_on then LED_FULL else LED_OFF))) := by
  have h1 : ¬ (3 : Int) ≤ (i.val : Int) := by omega
  have h2 : (0 : Int) ≤ (i.val : Int) ∧ (i.val : Int) < 3 := by omega
  have hi : (⟨((i.val : Int)).toNat, by omega⟩ : LedNum) = i := by
    apply Fin.ext; simp
  constructor
  · intro hd
    simp only [hid_lenovo_led_set, ge_iff_le, h1, if_false, h2, and_self, dite_true, hi, hd]
  · intro p cdev hd hl
    have hl2 : (w.set_table_state i (if state_on then 1 else 0)).led_at p = some cdev := by
      simpa [World.led_at, World.set_table_state] using hl
    simp only [hid_lenovo_led_set, ge_iff_le, h1, if_false, h2, and_self, dite_true, hi, hd, hl2]

/-! ## Probe fallbacks and removal: theorems -/

/-- Without the special-function report set the special-function probe
returns -ENODEV and changes nothing. -/
theorem special_functions_unmatched (w : World) (hdev : Nat)
    (hm : special_functions_report_match (w.devs hdev) = false) :
    lenovo_probe_tpx1cover_special_functions w hdev = (-ENODEV, w) := by
  simp [lenovo_probe_tpx1cover_special_functions, hm]

/-- C9: on a device without the special-function report set, when the
allocation succeeds, `lenovo_probe_tpx1cover` registers no LED and leaves the
LED registry as it was; with the touch report set it returns -ENODEV and
leaves the whole world (so also the stored device state) unchanged; with
neither set it returns 0 and stores driver data with LED mask 0, ownership
flag 0 and fn-lock marker 1. -/
theorem probe_without_special_functions (w : World) (hdev : Nat)
    (hm : special_functions_report_match (w.devs hdev) = false)
    (ha : w.alloc_ok w.alloc_calls = true) :
    (lenovo_probe_tpx1cover w hdev).2.led_class_calls = w.led_class_calls ∧
    (lenovo_probe_tpx1cover w hdev).2.hid_lenovo_led_table = w.hid_lenovo_led_table ∧
    (touch_report_match (w.devs hdev) = true →
      lenovo_probe_tpx1cover w hdev = (-ENODEV, w)) ∧
    (touch_report_match (w.devs hdev) = false →
      (lenovo_probe_tpx1cover w hdev).1 = 0 ∧
      ((lenovo_probe_tpx1cover w hdev).2.devs hdev).drvdata =
        some (keyboard_drvdata w.alloc_calls) ∧
      (keyboard_drvdata w.alloc_calls).led_state = 0 ∧
      (keyboard_drvdata w.alloc_calls).led_present = 0 ∧
      (keyboard_drvdata w.alloc_calls).fnlock_state = 1) := by
  have e := special_functions_unmatched w hdev hm
  have hne : ¬ (-ENODEV = 0) := by decide
  by_cases ht : touch_report_match (w.devs hdev) = true
  · have r : lenovo_probe_tpx1cover w hdev = (-ENODEV, w) := by
      simp [lenovo_probe_tpx1cover, e, hne, lenovo_probe_tpx1cover_touch, ht]
    simp [r, ht]
  · have ht2 : touch_report_match (w.devs hdev) = false := by simpa using ht
    have r : lenovo_probe_tpx1cover w hdev =
        (0, hid_set_drvdata { w with alloc_calls := w.alloc_calls + 1 } hdev
          (some (keyboard_drvdata w.alloc_calls))) := by
      simp [lenovo_probe_tpx1cover, e, hne, lenovo_probe_tpx1cover_touch, ht2, devm_kzalloc, ha,
        keyboard_drvdata, lenovo_drvdata_tpx1cover.zero]
    simp [r, ht2, hid_set_drvdata, World.set_dev, keyboard_drvdata]

/-- C9 witness: the touch interface (device 2) and the keyboard interface
(device 0) of the boot world. -/
theorem probe_without_special_functions_witness :
    lenovo_probe_tpx1cover (boot_world fun _ => true) 2 = (-ENODEV, boot_world fun _ => true) ∧
    (lenovo_probe_tpx1cover (boot_world fun _ => true) 0).1 = 0 ∧
    ((lenovo_probe_tpx1cover (boot_world fun _ => true) 0).2.devs 0).drvdata =
      some (keyboard_drvdata 0) ∧
    (lenovo_probe_tpx1cover (boot_world fun _ => true) 0).2.led_class_calls = [] :=
  ⟨(probe_without_special_functions (boot_world fun _ => true) 2 (by decide) rfl).2.2.1
      (by decide),
   ((probe_without_special_functions (boot_world fun _ => true) 0 (by decide) rfl).2.2.2
      (by decide)).1,
   ((probe_without_special_functions (boot_world fun _ => true) 0 (by decide) rfl).2.2.2
      (by decide)).2.1,
   (probe_without_special_functions (boot_world fun _ => true) 0 (by decide) rfl).1⟩

/-- C10: `lenovo_remove_tpx1cover` on a device whose driver data has the
ownership flag set and the three LED names set (as the special-function probe
leaves it) unbinds the three registry handles, unregisters fnlock, micmute and
mute, and clears the stored driver data; on a device whose ownership flag is 0
it only clears the stored driver data; the registry states never change. -/
theorem remove_spec (w : World) (hdev : Nat) (d : lenovo_drvdata_tpx1cover)
    (h : (w.devs hdev).drvdata = some d) :
    (d.led_present ≠ 0 → d.led_mute.name.isSome = true → d.led_micmute.name.isSome = true →
      d.led_fnlock.name.isSome = true →
      (∀ i, ((lenovo_remove_tpx1cover w hdev).hid_lenovo_led_table i).dev = none) ∧
      (lenovo_remove_tpx1cover w hdev).led_class_calls = w.led_class_calls ++
        [led_class_call.unregister ⟨hdev, d.addr, .led_fnlock⟩,
         led_class_call.unregister ⟨hdev, d.addr, .led_micmute⟩,
         led_class_call.unregister ⟨hdev, d.addr, .led_mute⟩] ∧
      ((lenovo_remove_tpx1cover w hdev).devs hdev).drvdata = none) ∧
    (d.led_present = 0 → lenovo_remove_tpx1cover w hdev = hid_set_drvdata w hdev none ∧
      (lenovo_remove_tpx1cover w hdev).hid_lenovo_led_table = w.hid_lenovo_led_table ∧
      (lenovo_remove_tpx1cover w hdev).led_class_calls = w.led_class_calls ∧
      ((lenovo_remove_tpx1cover w hdev).devs hdev).drvdata = none) ∧
    (∀ i, ((lenovo_remove_tpx1cover w hdev).hid_lenovo_led_table i).state =
      (w.hid_lenovo_led_table i).state) := by
  refine ⟨fun hp h1 h2 h3 => ⟨fun i => ?_, ?_, ?_⟩, fun hp => ?_, fun i => ?_⟩
  · simp only [lenovo_remove_tpx1cover, h, hp, h1, h2, h3, ne_eq, not_false_eq_true, if_true,
      hid_set_drvdata, World.set_dev, led_classdev_unregister, World.set_table_dev,
      HID_LENOVO_LED_MUTE, HID_LENOVO_LED_MICMUTE, HID_LENOVO_LED_FNLOCK]
    fin_cases i <;> simp
  · simp [lenovo_remove_tpx1cover, h, hp, h1, h2, h3, hid_set_drvdata, World.set_dev,
      led_classdev_unregister, World.set_table_dev, led_ptr]
  · simp [lenovo_remove_tpx1cover, h, hp, h1, h2, h3, hid_set_drvdata, World.set_dev,
      led_classdev_unregister, World.set_table_dev]
  · have r : lenovo_remove_tpx1cover w hdev = hid_set_drvdata w hdev none := by
      simp [lenovo_remove_tpx1cover, h, hp]
    simp [r, hid_set_drvdata, World.set_dev]
  · simp only [lenovo_remove_tpx1cover, h]
    split_ifs <;>
      simp [hid_set_drvdata, World.set_dev, led_classdev_unregister, World.set_table_dev] <;>
      split_ifs <;> simp_all

/-- The state a successful special-function probe leaves behind: the three
registry handles point at the LEDs of the new driver data, which has the
ownership flag and the three LED names set. -/
theorem probe_special_functions_state (w : World) (hdev : Nat)
    (hm : special_functions_report_match (w.devs hdev) = true)
    (ha : ∀ k, w.alloc_ok k = true) :
    (∃ mask, ((lenovo_probe_tpx1cover w hdev).2.devs hdev).drvdata =
      some (owning_drvdata (w.devs hdev).dev_name hdev w.alloc_calls mask)) ∧
    ((lenovo_probe_tpx1cover w hdev).2.hid_lenovo_led_table HID_LENOVO_LED_MUTE).dev =
      some ⟨hdev, w.alloc_calls, .led_mute⟩ ∧
    ((lenovo_probe_tpx1cover w hdev).2.hid_lenovo_led_table HID_LENOVO_LED_MICMUTE).dev =
      some ⟨hdev, w.alloc_calls, .led_micmute⟩ ∧
    ((lenovo_probe_tpx1cover w hdev).2.hid_lenovo_led_table HID_LENOVO_LED_FNLOCK).dev =
      some ⟨hdev, w.alloc_calls, .led_fnlock⟩ := by
  obtain ⟨w1, e, hd, hre, -, -, -, m1, m2, m3⟩ := special_functions_success w hdev hm ha
  have h9 : (report_id_hash (w1.devs hdev) HID_OUTPUT_REPORT 9).isSome = true := by
    have := report9_of_special_match hm
    simpa [report_id_hash, hre] using this
  obtain ⟨c1, -, -, c4, s, c5⟩ := configure_spec w1 hdev _ hd h9
  have hz : (lenovo_probe_tpx1cover_special_functions w hdev).1 = 0 := by rw [e]; exact c1
  rw [probe_of_special_functions_zero w hdev hz, e]
  refine ⟨⟨s, ?_⟩, ?_, ?_, ?_⟩
  · rw [c5]; rfl
  · simp only [c4, m1]
  · simp only [c4, m2]
  · simp only [c4, m3]

/-- C10 witness: removal of the special-function interface right after its
probe (it owns the LEDs), and removal of the keyboard interface after its
probe (it owns nothing). -/
theorem remove_spec_witness :
    ((∀ i, ((lenovo_remove_tpx1cover (lenovo_probe_tpx1cover (boot_world fun _ => true) 1).2
        1).hid_lenovo_led_table i).dev = none) ∧
      (lenovo_remove_tpx1cover (lenovo_probe_tpx1cover (boot_world fun _ => true) 1).2
        1).led_class_calls =
        (lenovo_probe_tpx1cover (boot_world fun _ => true) 1).2.led_class_calls ++
          [led_class_call.unregister ⟨1, 0, .led_fnlock⟩,
           led_class_call.unregister ⟨1, 0, .led_micmute⟩,
           led_class_call.unregister ⟨1, 0, .led_mute⟩] ∧
      ((lenovo_remove_tpx1cover (lenovo_probe_tpx1cover (boot_world fun _ => true) 1).2
        1).devs 1).drvdata = none) ∧
    (lenovo_remove_tpx1cover (lenovo_probe_tpx1cover (boot_world fun _ => true) 0).2 0).led_class_calls
      = (lenovo_probe_tpx1cover (boot_world fun _ => true) 0).2.led_class_calls :=
  ⟨(remove_spec (lenovo_probe_tpx1cover (boot_world fun _ => true) 1).2 1
      (owning_drvdata "0003:17EF:60B5.0001" 1 0 4) rfl).1 (by decide) rfl rfl rfl,
   ((remove_spec (lenovo_probe_tpx1cover (boot_world fun _ => true) 0).2 0
      (keyboard_drvdata 0) rfl).2.1 rfl).2.2.1⟩

/-! ## Registry invariant over host call sequences -/

/-- C11 (evaluation at failing inputs): from the boot world with an empty LED
registry, (1) a single probe of the special-function interface in which the
second LED name cannot be allocated, and no later allocation succeeds, returns
-ENOMEM and attaches nothing, yet leaves the mute handle of the registry
bound; (2) probe, remove, and a second probe of the same interface whose
second LED name cannot be allocated end with the device attached through the
keyboard fallback while the mute handle points into released driver data. In
both states the registry invariant is false. -/
theorem registry_invariant_broken_evaluated :
    (lenovo_probe_tpx1cover (boot_world fun k => decide (k < 2)) 1).1 = -ENOMEM ∧
    (host_run ⟨boot_world fun k => decide (k < 2), []⟩ [.probe 1]).attached = [] ∧
    ((host_run ⟨boot_world fun k => decide (k < 2), []⟩ [.probe 1]).world.hid_lenovo_led_table
      HID_LENOVO_LED_MUTE).dev = some ⟨1, 0, .led_mute⟩ ∧
    ¬ registry_single_attached (host_run ⟨boot_world fun k => decide (k < 2), []⟩ [.probe 1]) ∧
    (host_run ⟨boot_world fun k => k != 6, []⟩ [.probe 1, .remove 1, .probe 1]).attached = [1] ∧
    ((host_run ⟨boot_world fun k => k != 6, []⟩
      [.probe 1, .remove 1, .probe 1]).world.hid_lenovo_led_table HID_LENOVO_LED_MUTE).dev =
        some ⟨1, 4, .led_mute⟩ ∧
    (host_run ⟨boot_world fun k => k != 6, []⟩
      [.probe 1, .remove 1, .probe 1]).world.led_at ⟨1, 4, .led_mute⟩ = none ∧
    ¬ registry_single_attached
      (host_run ⟨boot_world fun k => k != 6, []⟩ [.probe 1, .remove 1, .probe 1]) := by
  refine ⟨by decide, by decide, by decide, ?_, by decide, by decide, by decide, ?_⟩
  · intro h
    have h1 := (h HID_LENOVO_LED_MUTE ⟨1, 0, .led_mute⟩ (by decide)).1
    revert h1
    decide
  · intro h
    have h1 := (h HID_LENOVO_LED_MUTE ⟨1, 4, .led_mute⟩ (by decide)).2.1
    revert h1
    decide

theorem World.frame.refl (hdev : Nat) (w : World) : World.frame hdev w w :=
  ⟨rfl, fun _ => rfl, fun _ _ => rfl⟩

theorem World.frame.trans {hdev : Nat} {w1 w2 w3 : World} (h12 : World.frame hdev w1 w2)
    (h23 : World.frame hdev w2 w3) : World.frame hdev w1 w3 :=
  ⟨h23.1.trans h12.1, fun i => (h23.2.1 i).trans (h12.2.1 i),
    fun i hi => (h23.2.2 i hi).trans (h12.2.2 i hi)⟩

theorem frame_hid_set_drvdata (w : World) (hdev : Nat) (p : Option lenovo_drvdata_tpx1cover) :
    World.frame hdev w (hid_set_drvdata w hdev p) := by
  refine ⟨rfl, fun i => ?_, fun i hi => ?_⟩
  · by_cases hi : i = hdev <;> simp [hid_set_drvdata, World.set_dev, hi]
  · simp [hid_set_drvdata, World.set_dev, hi]

theorem frame_hid_hw_request (w : World) (hdev a b c e : Nat) :
    World.frame hdev w (hid_hw_request w a b c e) :=
  ⟨rfl, fun _ => rfl, fun _ _ => rfl⟩

theorem frame_register (w : World) (hdev : Nat) (p : LedPtr) :
    World.frame hdev w (led_classdev_register w p) :=
  ⟨rfl, fun _ => rfl, fun _ _ => rfl⟩

theorem frame_unregister (w : World) (hdev : Nat) (p : LedPtr) :
    World.frame hdev w (led_classdev_unregister w p) :=
  ⟨rfl, fun _ => rfl, fun _ _ => rfl⟩

theorem frame_set_table_dev (w : World) (hdev : Nat) (i : LedNum) (p : Option LedPtr) :
    World.frame hdev w (w.set_table_dev i p) :=
  ⟨rfl, fun _ => rfl, fun _ _ => rfl⟩

theorem frame_devm_kzalloc (w : World) (hdev : Nat) : World.frame hdev w (devm_kzalloc w).2 :=
  ⟨rfl, fun _ => rfl, fun _ _ => rfl⟩

theorem frame_led_set (w : World) (hdev : Nat) (p : LedPtr) (value : Nat) (hp : p.hdev = hdev) :
    World.frame hdev w (lenovo_led_brightness_set_tpx1cover w p value) := by
  subst hp
  rcases led_set_cases w p value with h | ⟨d, h⟩ | ⟨d, a, b, c, e, h⟩ <;> rw [h]
  · exact World.frame.refl _ _
  · exact frame_hid_set_drvdata _ _ _
  · exact (frame_hid_set_drvdata _ _ _).trans (frame_hid_hw_request _ _ _ _ _ _)

theorem frame_configure (w : World) (hdev : Nat) :
    World.frame hdev w (lenovo_probe_tpx1cover_configure w hdev).2 := by
  unfold lenovo_probe_tpx1cover_configure
  cases (w.devs hdev).drvdata with
  | none => exact World.frame.refl _ _
  | some d =>
    cases report_id_hash (w.devs hdev) HID_OUTPUT_REPORT 9 with
    | none => exact World.frame.refl _ _
    | some r =>
      simp only [hid_hw_wait]
      refine World.frame.trans ?_ (frame_led_set _ hdev _ _ rfl)
      refine World.frame.trans ?_ (frame_led_set _ hdev _ _ rfl)
      refine World.frame.trans ?_ (frame_led_set _ hdev _ _ rfl)
      exact ((frame_hid_hw_request _ _ _ _ _ _).trans (frame_hid_hw_request _ _ _ _ _ _)).trans
        (frame_hid_hw_request _ _ _ _ _ _)

theorem frame_err_cleanup (w : World) (hdev : Nat) (d : lenovo_drvdata_tpx1cover) (ret : Int) :
    World.frame hdev w (special_functions_err_cleanup w hdev d ret).2 := by
  unfold special_functions_err_cleanup
  simp only
  split_ifs <;> exact ⟨rfl, fun _ => rfl, fun _ _ => rfl⟩

theorem frame_special_functions (w : World) (hdev : Nat) :
    World.frame hdev w (lenovo_probe_tpx1cover_special_functions w hdev).2 := by
  unfold lenovo_probe_tpx1cover_special_functions
  simp only [devm_kzalloc, register_alloc_ok, register_alloc_calls, set_table_dev_alloc_ok,
    set_table_dev_alloc_calls]
  by_cases hm : special_functions_report_match (w.devs hdev) = false
  · simp only [hm, if_true]
    exact World.frame.refl _ _
  · simp only [hm, if_false]
    by_cases h0 : w.alloc_ok w.alloc_calls = true
    · by_cases h1 : w.alloc_ok (w.alloc_calls + 1) = true
      · by_cases h2 : w.alloc_ok (w.alloc_calls + 1 + 1) = true
        · by_cases h3 : w.alloc_ok (w.alloc_calls + 1 + 1 + 1) = true
          · simp only [h0, h1, h2, h3, if_true]
            refine World.frame.trans ?_ (frame_configure _ hdev)
            refine World.frame.trans ?_ (frame_hid_set_drvdata _ hdev _)
            exact ⟨rfl, fun _ => rfl, fun _ _ => rfl⟩
          · simp only [h0, h1, h2, h3, if_true, if_false]
            refine World.frame.trans ?_ (frame_err_cleanup _ hdev _ _)
            exact ⟨rfl, fun _ => rfl, fun _ _ => rfl⟩
        · simp only [h0, h1, h2, if_true, if_false]
          refine World.frame.trans ?_ (frame_err_cleanup _ hdev _ _)
          exact ⟨rfl, fun _ => rfl, fun _ _ => rfl⟩
      · simp only [h0, h1, if_true, if_false]
        refine World.frame.trans ?_ (frame_err_cleanup _ hdev _ _)
        exact ⟨rfl, fun _ => rfl, fun _ _ => rfl⟩
    · simp only [h0, if_false]
      exact ⟨rfl, fun _ => rfl, fun _ _ => rfl⟩

/-- `lenovo_probe_tpx1cover` on `hdev` keeps the allocation outcomes, every
device's reports and every other device's driver data. -/
theorem frame_probe (w : World) (hdev : Nat) :
    World.frame hdev w (lenovo_probe_tpx1cover w hdev).2 := by
  have hs := frame_special_functions w hdev
  unfold lenovo_probe_tpx1cover
  generalize lenovo_probe_tpx1cover_special_functions w hdev = r at hs
  obtain ⟨ret_sf, w1⟩ := r
  simp only at hs ⊢
  split_ifs
  · exact hs
  · exact hs
  · simp only [devm_kzalloc]
    by_cases h0 : w1.alloc_ok w1.alloc_calls = true
    · simp only [h0, if_true]
      refine hs.trans (World.frame.trans ?_ (frame_hid_set_drvdata _ hdev _))
      exact ⟨rfl, fun _ => rfl, fun _ _ => rfl⟩
    · simp only [h0, if_false]
      exact hs.trans ⟨rfl, fun _ => rfl, fun _ _ => rfl⟩

/-- `lenovo_remove_tpx1cover` on `hdev` keeps the same. -/
theorem frame_remove (w : World) (hdev : Nat) :
    World.frame hdev w (lenovo_remove_tpx1cover w hdev) := by
  unfold lenovo_remove_tpx1cover
  cases (w.devs hdev).drvdata with
  | none => exact World.frame.refl _ _
  | some d =>
    simp only
    refine World.frame.trans ?_ (frame_hid_set_drvdata _ hdev _)
    split_ifs <;> exact ⟨rfl, fun _ => rfl, fun _ _ => rfl⟩

theorem special_match_congr {d1 d2 : hid_device} (h : d1.report_enum = d2.report_enum) :
    special_functions_report_match d1 = special_functions_report_match d2 := by
  simp [special_functions_report_match, hid_validate_values, report_id_hash, h]

/-- With the special-function report set and every allocation succeeding the
probe returns 0. -/
theorem probe_special_functions_ret (w : World) (hdev : Nat)
    (hm : special_functions_report_match (w.devs hdev) = true)
    (ha : ∀ k, w.alloc_ok k = true) : (lenovo_probe_tpx1cover w hdev).1 = 0 := by
  obtain ⟨w1, e, hd, hre, -, -, -, -, -, -⟩ := special_functions_success w hdev hm ha
  have h9 : (report_id_hash (w1.devs hdev) HID_OUTPUT_REPORT 9).isSome = true := by
    have := report9_of_special_match hm
    simpa [report_id_hash, hre] using this
  obtain ⟨c1, -, -, -, -⟩ := configure_spec w1 hdev _ hd h9
  have hz : (lenovo_probe_tpx1cover_special_functions w hdev).1 = 0 := by rw [e]; exact c1
  rw [probe_of_special_functions_zero w hdev hz]

/-- Without the special-function report set the probe is the touch check
followed by the keyboard fallback. -/
theorem probe_unmatched_eq (w : World) (hdev : Nat)
    (hm : special_functions_report_match (w.devs hdev) = false)
    (ha : w.alloc_ok w.alloc_calls = true) :
    lenovo_probe_tpx1cover w hdev =
      if touch_report_match (w.devs hdev) = true then (-ENODEV, w)
      else (0, hid_set_drvdata { w with alloc_calls := w.alloc_calls + 1 } hdev
        (some (keyboard_drvdata w.alloc_calls))) := by
  have e := special_functions_unmatched w hdev hm
  have hne : ¬ (-ENODEV = 0) := by decide
  by_cases ht : touch_report_match (w.devs hdev) = true
  · simp [lenovo_probe_tpx1cover, e, hne, lenovo_probe_tpx1cover_touch, ht]
  · have ht2 : touch_report_match (w.devs hdev) = false := by simpa using ht
    simp [lenovo_probe_tpx1cover, e, hne, lenovo_probe_tpx1cover_touch, ht2, devm_kzalloc, ha,
      keyboard_drvdata, lenovo_drvdata_tpx1cover.zero]

theorem remove_unbound (w : World) (hdev : Nat) (h : (w.devs hdev).drvdata = none) :
    lenovo_remove_tpx1cover w hdev = w := by
  simp [lenovo_remove_tpx1cover, h]

theorem remove_not_owning (w : World) (hdev : Nat) (d : lenovo_drvdata_tpx1cover)
    (h : (w.devs hdev).drvdata = some d) (hp : d.led_present = 0) :
    lenovo_remove_tpx1cover w hdev = hid_set_drvdata w hdev none := by
  simp [lenovo_remove_tpx1cover, h, hp]

theorem remove_owning_table (w : World) (hdev : Nat) (d : lenovo_drvdata_tpx1cover)
    (h : (w.devs hdev).drvdata = some d) (hp : d.led_present ≠ 0)
    (h1 : d.led_mute.name.isSome = true) (h2 : d.led_micmute.name.isSome = true)
    (h3 : d.led_fnlock.name.isSome = true) (i : LedNum) :
    ((lenovo_remove_tpx1cover w hdev).hid_lenovo_led_table i).dev = none := by
  simp only [lenovo_remove_tpx1cover, h, hp, h1, h2, h3, ne_eq, not_false_eq_true, if_true,
    hid_set_drvdata, World.set_dev, led_classdev_unregister, World.set_table_dev,
    HID_LENOVO_LED_MUTE, HID_LENOVO_LED_MICMUTE, HID_LENOVO_LED_FNLOCK]
  fin_cases i <;> simp

theorem remove_drvdata (w : World) (hdev : Nat) :
    ((lenovo_remove_tpx1cover w hdev).devs hdev).drvdata = none := by
  unfold lenovo_remove_tpx1cover
  cases h : (w.devs hdev).drvdata with
  | none => simpa using h
  | some d => simp [hid_set_drvdata, World.set_dev]

/-- A probe keeps the invariant while every allocation succeeds. -/
theorem host_invariant_probe (s : HostState) (hdev : Nat) (hinv : host_invariant s) :
    host_invariant (host_step s (.probe hdev)) := by
  obtain ⟨ha, hb, hc⟩ := hinv
  have hf := frame_probe s.world hdev
  by_cases hm : special_functions_report_match (s.world.devs hdev) = true
  · have hret := probe_special_functions_ret s.world hdev hm ha
    obtain ⟨⟨mask, hd⟩, m1, m2, m3⟩ := probe_special_functions_state s.world hdev hm ha
    have key : ∀ i p, ((lenovo_probe_tpx1cover s.world hdev).2.hid_lenovo_led_table i).dev =
        some p → p.hdev = hdev ∧ p.obj = s.world.alloc_calls := by
      intro i p hip
      have hi : i = HID_LENOVO_LED_MUTE ∨ i = HID_LENOVO_LED_MICMUTE ∨
          i = HID_LENOVO_LED_FNLOCK := by
        fin_cases i
        · exact Or.inl rfl
        · exact Or.inr (Or.inl rfl)
        · exact Or.inr (Or.inr rfl)
      rcases hi with rfl | rfl | rfl
      · rw [m1] at hip; cases hip; exact ⟨rfl, rfl⟩
      · rw [m2] at hip; cases hip; exact ⟨rfl, rfl⟩
      · rw [m3] at hip; cases hip; exact ⟨rfl, rfl⟩
    refine ⟨fun k => ?_, fun h d hdd hp => ?_, fun i p hip => ?_⟩
    · show (lenovo_probe_tpx1cover s.world hdev).2.alloc_ok k = true
      rw [hf.1]; exact ha k
    · change ((lenovo_probe_tpx1cover s.world hdev).2.devs h).drvdata = some d at hdd
      show special_functions_report_match ((lenovo_probe_tpx1cover s.world hdev).2.devs h) = true
        ∧ _
      rw [special_match_congr (hf.2.1 h)]
      by_cases hh : h = hdev
      · subst hh
        rw [hd] at hdd
        cases hdd
        exact ⟨hm, rfl, rfl, rfl⟩
      · rw [hf.2.2 h hh] at hdd
        exact hb h d hdd hp
    · change ((lenovo_probe_tpx1cover s.world hdev).2.hid_lenovo_led_table i).dev = some p at hip
      obtain ⟨e1, e2⟩ := key i p hip
      refine ⟨?_, ?_, fun j q hjq => ?_⟩
      · show p.hdev ∈ (if (lenovo_probe_tpx1cover s.world hdev).1 = 0 then hdev :: s.attached
          else s.attached)
        simp [hret, e1]
      · show ∃ d, ((lenovo_probe_tpx1cover s.world hdev).2.devs p.hdev).drvdata = some d ∧ _
        rw [e1, hd]
        exact ⟨_, rfl, e2.symm, by simp [owning_drvdata]⟩
      · change ((lenovo_probe_tpx1cover s.world hdev).2.hid_lenovo_led_table j).dev = some q
          at hjq
        obtain ⟨f1, f2⟩ := key j q hjq
        exact ⟨f1.trans e1.symm, f2.trans e2.symm⟩
  · have hm2 : special_functions_report_match (s.world.devs hdev) = false := by simpa using hm
    have e := probe_unmatched_eq s.world hdev hm2 (ha _)
    by_cases ht : touch_report_match (s.world.devs hdev) = true
    · rw [if_pos ht] at e
      have hs : host_step s (.probe hdev) = s := by
        simp [host_step, e, ENODEV]
      rw [hs]
      exact ⟨ha, hb, hc⟩
    · rw [if_neg ht] at e
      have hne : ∀ i p, (s.world.hid_lenovo_led_table i).dev = some p → p.hdev ≠ hdev := by
        intro i p hip hph
        obtain ⟨-, ⟨d, hd, -, hp⟩, -⟩ := hc i p hip
        rw [hph] at hd
        have := (hb hdev d hd hp).1
        rw [hm2] at this
        exact Bool.noConfusion this
      refine ⟨fun k => ?_, fun h d hdd hp => ?_, fun i p hip => ?_⟩
      · show (lenovo_probe_tpx1cover s.world hdev).2.alloc_ok k = true
        rw [hf.1]; exact ha k
      · change ((lenovo_probe_tpx1cover s.world hdev).2.devs h).drvdata = some d at hdd
        show special_functions_report_match ((lenovo_probe_tpx1cover s.world hdev).2.devs h)
          = true ∧ _
        rw [special_match_congr (hf.2.1 h)]
        by_cases hh : h = hdev
        · subst hh
          rw [e] at hdd
          simp [hid_set_drvdata, World.set_dev] at hdd
          subst hdd
          exact absurd rfl hp
        · rw [hf.2.2 h hh] at hdd
          exact hb h d hdd hp
      · change ((lenovo_probe_tpx1cover s.world hdev).2.hid_lenovo_led_table i).dev = some p
          at hip
        have ht0 : (lenovo_probe_tpx1cover s.world hdev).2.hid_lenovo_led_table =
            s.world.hid_lenovo_led_table := by rw [e]; rfl
        rw [ht0] at hip
        obtain ⟨c1, ⟨d, hd, c2, c3⟩, c4⟩ := hc i p hip
        refine ⟨?_, ⟨d, ?_, c2, c3⟩, fun j q hjq => ?_⟩
        · show p.hdev ∈ (if (lenovo_probe_tpx1cover s.world hdev).1 = 0 then hdev :: s.attached
            else s.attached)
          split_ifs
          · exact List.mem_cons_of_mem _ c1
          · exact c1
        · show ((lenovo_probe_tpx1cover s.world hdev).2.devs p.hdev).drvdata = some d
          rw [hf.2.2 _ (hne i p hip)]; exact hd
        · change ((lenovo_probe_tpx1cover s.world hdev).2.hid_lenovo_led_table j).dev = some q
            at hjq
          rw [ht0] at hjq
          exact c4 j q hjq

/-- A removal keeps the invariant. -/
theorem host_invariant_remove (s : HostState) (hdev : Nat) (hinv : host_invariant s) :
    host_invariant (host_step s (.remove hdev)) := by
  obtain ⟨ha, hb, hc⟩ := hinv
  have hf := frame_remove s.world hdev
  refine ⟨fun k => ?_, fun h d hdd hp => ?_, fun i p hip => ?_⟩
  · show (lenovo_remove_tpx1cover s.world hdev).alloc_ok k = true
    rw [hf.1]; exact ha k
  · change ((lenovo_remove_tpx1cover s.world hdev).devs h).drvdata = some d at hdd
    show special_functions_report_match ((lenovo_remove_tpx1cover s.world hdev).devs h) = true
      ∧ _
    rw [special_match_congr (hf.2.1 h)]
    by_cases hh : h = hdev
    · subst hh
      rw [remove_drvdata] at hdd
      exact Option.noConfusion hdd
    · rw [hf.2.2 h hh] at hdd
      exact hb h d hdd hp
  · change ((lenovo_remove_tpx1cover s.world hdev).hid_lenovo_led_table i).dev = some p at hip
    have keep : (lenovo_remove_tpx1cover s.world hdev).hid_lenovo_led_table =
        s.world.hid_lenovo_led_table →
        (∀ d, (s.world.devs p.hdev).drvdata = some d → d.led_present ≠ 0 → p.hdev ≠ hdev) →
        p.hdev ∈ (host_step s (.remove hdev)).attached ∧
        (∃ d, ((host_step s (.remove hdev)).world.devs p.hdev).drvdata = some d ∧
          d.addr = p.obj ∧ d.led_present ≠ 0) ∧
        ∀ j q, ((host_step s (.remove hdev)).world.hid_lenovo_led_table j).dev = some q →
          q.hdev = p.hdev ∧ q.obj = p.obj := by
      intro ht0 hne
      rw [ht0] at hip
      obtain ⟨c1, ⟨d, hd, c2, c3⟩, c4⟩ := hc i p hip
      have hph := hne d hd c3
      refine ⟨?_, ⟨d, ?_, c2, c3⟩, fun j q hjq => ?_⟩
      · show p.hdev ∈ s.attached.filter fun i => i != hdev
        simp [List.mem_filter, c1, hph]
      · show ((lenovo_remove_tpx1cover s.world hdev).devs p.hdev).drvdata = some d
        rw [hf.2.2 _ hph]; exact hd
      · change ((lenovo_remove_tpx1cover s.world hdev).hid_lenovo_led_table j).dev = some q
          at hjq
        rw [ht0] at hjq
        exact c4 j q hjq
    cases hdrv : (s.world.devs hdev).drvdata with
    | none =>
      refine keep (by rw [remove_unbound s.world hdev hdrv]) fun d hd _ hph => ?_
      rw [hph, hdrv] at hd
      exact Option.noConfusion hd
    | some d0 =>
      by_cases hp0 : d0.led_present = 0
      · refine keep (by rw [remove_not_owning s.world hdev d0 hdrv hp0]; rfl)
          fun d hd hp hph => ?_
        rw [hph, hdrv] at hd
        cases hd
        exact hp hp0
      · obtain ⟨-, n1, n2, n3⟩ := hb hdev d0 hdrv hp0
        rw [remove_owning_table s.world hdev d0 hdrv hp0 n1 n2 n3 i] at hip
        exact Option.noConfusion hip

/-- Every call keeps the invariant, hence every call sequence does. -/
theorem host_invariant_run (calls : List HostCall) (s : HostState) (hinv : host_invariant s) :
    host_invariant (host_run s calls) := by
  induction calls generalizing s with
  | nil => exact hinv
  | cons c rest ih =>
    cases c with
    | probe hdev => exact ih _ (host_invariant_probe s hdev hinv)
    | remove hdev => exact ih _ (host_invariant_remove s hdev hinv)

theorem registry_single_attached_of_invariant (s : HostState) (hinv : host_invariant s) :
    registry_single_attached s := by
  intro i p hip
  obtain ⟨c1, ⟨d, hd, c2, -⟩, c4⟩ := hinv.2.2 i p hip
  refine ⟨c1, ?_, c4⟩
  simp [World.led_at, hd, c2]

/-- While no allocation fails, the registry invariant does hold in every state
reachable from an empty registry and unprobed devices by probe and remove
calls: the failing allocation is the only way to break it. -/
theorem registry_single_attached_of_alloc_ok (w : World) (calls : List HostCall)
    (ha : ∀ k, w.alloc_ok k = true)
    (hempty : ∀ i, (w.hid_lenovo_led_table i).dev = none)
    (hfresh : ∀ h, (w.devs h).drvdata = none) :
    registry_single_attached (host_run ⟨w, []⟩ calls) := by
  apply registry_single_attached_of_invariant
  apply host_invariant_run
  refine ⟨ha, fun h d hdd _ => ?_, fun i p hip => ?_⟩
  · rw [hfresh h] at hdd
    exact Option.noConfusion hdd
  · rw [hempty i] at hip
    exact Option.noConfusion hip

/-- The boot world with every allocation succeeding meets the hypotheses, for
instance along probe keyboard, probe special-function, remove keyboard. -/
theorem registry_single_attached_boot :
    registry_single_attached
      (host_run ⟨boot_world fun _ => true, []⟩ [.probe 0, .probe 1, .remove 0]) :=
  registry_single_attached_of_alloc_ok (boot_world fun _ => true)
    [.probe 0, .probe 1, .remove 0] (fun _ => rfl) (fun _ => rfl)
    (fun h => by simp only [boot_world]; split_ifs <;> rfl)

end X1Tab3
